import Mathlib

/-!
Verification development for the multi-source football-data
reconciliation engine (populator.py, sync.py, db_utils.py,
offline_csv_converter.py).  Database tables are modelled as functions
from primary keys to optional rows; the Postgres statement
INSERT ... VALUES ... ON CONFLICT (pk) DO UPDATE / DO NOTHING over a
list of incoming values is modelled as a left fold of a per-row merge
function; Python dicts used for in-batch de-duplication are modelled as
association lists with dict insertion semantics.
-/

set_option maxHeartbeats 1000000
set_option maxRecDepth 8000

namespace AtomPwa

/-! ### Generic keyed tables and batch upserts -/

/-- A database table keyed by primary key: each key holds at most one row. -/
def Tbl (κ ρ : Type) : Type := κ → Option ρ

/-- One incoming value of an INSERT ... ON CONFLICT statement: the row at
the value's key is replaced by the merge function applied to the existing
row (none encodes key absence, i.e. the plain INSERT arm fires). -/
def upsertRow [DecidableEq κ] (key : σ → κ) (applyRow : Option ρ → σ → ρ)
    (t : Tbl κ ρ) (v : σ) : Tbl κ ρ :=
  fun k => if k = key v then some (applyRow (t k) v) else t k

/-- A multi-row INSERT ... ON CONFLICT statement: the incoming values are
merged into the table one after the other. -/
def upsertBatch [DecidableEq κ] (key : σ → κ) (applyRow : Option ρ → σ → ρ)
    (t : Tbl κ ρ) (vs : List σ) : Tbl κ ρ :=
  vs.foldl (upsertRow key applyRow) t

/-! ### Python dict models (in-batch de-duplication) -/

/-- Python dict insertion d[k] = v: a present key has its value replaced
in place (key order is first-insertion order), an absent key is appended. -/
def dictInsert [DecidableEq κ] (d : List (κ × α)) (k : κ) (v : α) :
    List (κ × α) :=
  if d.any (fun p => decide (p.1 = k)) then
    d.map (fun p => if p.1 = k then (k, v) else p)
  else d ++ [(k, v)]

/-- Folding a value list into a fresh dict keyed by the given function,
as in: for v in vs: d[key(v)] = v. -/
def dictOfList [DecidableEq κ] (key : σ → κ) (vs : List σ) : List (κ × σ) :=
  vs.foldl (fun d v => dictInsert d (key v) v) []

/-- Python guarded dict insertion: if k not in d: d[k] = v. -/
def dictInsertIfAbsent [DecidableEq κ] (d : List (κ × α)) (k : κ) (v : α) :
    List (κ × α) :=
  if d.any (fun p => decide (p.1 = k)) then d else d ++ [(k, v)]

/-- A sequence of guarded dict insertions (first entry per key wins). -/
def dictInsertManyIfAbsent [DecidableEq κ] (d : List (κ × α))
    (kvs : List (κ × α)) : List (κ × α) :=
  kvs.foldl (fun d p => dictInsertIfAbsent d p.1 p.2) d

/-! ### populator.py: payload shapes (football-data.org, FD format)

Provider payloads are JSON objects; absent or null JSON fields read with
dict.get become none.  Python truthiness tests on ids treat 0 as falsy and
on strings treat the empty string as falsy; both are modelled explicitly. -/

/-- Truthiness of an optional integer id (Python: absent, None and 0 are falsy). -/
def natTruthy : Option Nat → Bool
  | none => false
  | some n => decide (n ≠ 0)

/-- Truthiness of an optional string (Python: absent, None and the empty
string are falsy). -/
def strFalsy : Option String → Bool
  | none => true
  | some s => decide (s = "")

/-- Python x or dflt for an optional string value. -/
def pyOrStr (s : Option String) (dflt : String) : String :=
  match s with
  | some v => if v = "" then dflt else v
  | none => dflt

/-- Python x or dflt for an optional natural value (0 is falsy). -/
def pyOrNat (v : Option Nat) (dflt : Nat) : Nat :=
  match v with
  | some n => if n = 0 then dflt else n
  | none => dflt

/-- Python x or dflt for an optional integer value (0 is falsy). -/
def pyOrInt (v : Option Int) (dflt : Int) : Int :=
  match v with
  | some n => if n = 0 then dflt else n
  | none => dflt

structure FDArea where
  id : Option Nat
  name : Option String
  code : Option String
  flag : Option String
deriving DecidableEq

structure FDTeam where
  id : Option Nat
  area : Option FDArea
  name : Option String
  shortName : Option String
  tla : Option String
  crest : Option String
  address : Option String
  website : Option String
  founded : Option Int
  clubColors : Option String
  venue : Option String
  lastUpdated : Option String
  as_team_id : Option Nat
deriving DecidableEq

structure FDScorePair where
  home : Option Int
  away : Option Int
deriving DecidableEq

structure FDScore where
  winner : Option String
  duration : Option String
  fullTime : FDScorePair
  halfTime : FDScorePair
deriving DecidableEq

structure FDMatch where
  id : Option Nat
  utcDate : Option String
  status : Option String
  matchday : Option Int
  stage : Option String
  group : Option String
  homeTeam : Option FDTeam
  awayTeam : Option FDTeam
  score : FDScore
  lastUpdated : Option String
deriving DecidableEq

structure FDCompetition where
  id : Option Nat
  area : Option FDArea
  name : Option String
  code : Option String
  type : Option String
  emblem : Option String
  lastUpdated : Option String
  as_competition_id : Option Nat
deriving DecidableEq

structure FDStandingRow where
  team : Option FDTeam
  position : Option Int
  playedGames : Option Int
  form : Option String
  won : Option Int
  draw : Option Int
  lost : Option Int
  points : Option Int
  goalsFor : Option Int
  goalsAgainst : Option Int
  goalDifference : Option Int
deriving DecidableEq

structure FDStanding where
  stage : Option String
  type : Option String
  group : Option String
  table : List FDStandingRow
deriving DecidableEq

/-! ### populator.py: table rows and smart upserts

Every populator upsert is INSERT ... ON CONFLICT (pk) DO UPDATE with every
non-key column set from EXCLUDED (and details_populated set to the literal
FALSE, which is also the inserted value); since the key column of the
conflicting row equals the incoming key, the merged row always equals the
row the plain INSERT arm would store.  Each merge function is therefore
the function that ignores the existing row. -/

/-- The v8.1 fix in upsert_areas: a falsy name is replaced by the code or
the literal Unknown Area before the row is staged. -/
def fixAreaName (a : FDArea) : FDArea :=
  if strFalsy a.name then { a with name := some (pyOrStr a.code "Unknown Area") } else a

/-- Row of the areas table, minus the area_id key. -/
structure AreaRow where
  name : Option String
  code : Option String
  flag : Option String
deriving DecidableEq

def areaKey (a : FDArea) : Nat := a.id.getD 0

def areaRowOf (a : FDArea) : AreaRow :=
  { name := a.name, code := a.code, flag := a.flag }

/-- Merge function of the areas upsert (full overwrite, see above). -/
def applyArea (_old : Option AreaRow) (a : FDArea) : AreaRow := areaRowOf a

/-- upsert_areas: truthy-id filter, v8.1 name fix, de-duplication through
the unique_areas dict keyed by id, then the multi-row upsert. -/
def upsert_areas (t : Tbl Nat AreaRow) (areas_data : List FDArea) : Tbl Nat AreaRow :=
  let unique_areas := dictOfList areaKey
      ((areas_data.filter (fun a => natTruthy a.id)).map fixAreaName)
  upsertBatch areaKey applyArea t (unique_areas.map Prod.snd)

/-- Row of the teams table (populator schema), minus the team_id key. -/
structure TeamRow where
  area_id : Option Nat
  name : Option String
  short_name : Option String
  tla : Option String
  crest : Option String
  address : Option String
  website : Option String
  founded : Option Int
  club_colors : Option String
  venue : Option String
  last_updated : Option String
  as_team_id : Option Nat
deriving DecidableEq

def teamKey (t : FDTeam) : Nat := t.id.getD 0

def teamRowOf (t : FDTeam) : TeamRow :=
  { area_id := t.area.bind (·.id), name := t.name, short_name := t.shortName,
    tla := t.tla, crest := t.crest, address := t.address, website := t.website,
    founded := t.founded, club_colors := t.clubColors, venue := t.venue,
    last_updated := t.lastUpdated, as_team_id := t.as_team_id }

/-- Merge function of the populator teams upsert (full overwrite). -/
def applyTeamFD (_old : Option TeamRow) (t : FDTeam) : TeamRow := teamRowOf t

/-- The de-duplicated value list staged by upsert_teams: truthy-id
filter, then the unique_teams dict keyed by id. -/
def teamUpsertValues (teams_data : List FDTeam) : List FDTeam :=
  (dictOfList teamKey (teams_data.filter (fun t => natTruthy t.id))).map Prod.snd

/-- upsert_teams: truthy-id filter, de-duplication through the
unique_teams dict keyed by id, then the multi-row upsert. -/
def upsert_teams (tbl : Tbl Nat TeamRow) (teams_data : List FDTeam) : Tbl Nat TeamRow :=
  upsertBatch teamKey applyTeamFD tbl (teamUpsertValues teams_data)

/-- Row of the competitions table, minus the competition_id key. -/
structure CompetitionRow where
  area_id : Option Nat
  name : Option String
  code : Option String
  type : Option String
  emblem : Option String
  last_updated : Option String
  as_competition_id : Option Nat
deriving DecidableEq

def compKey (c : FDCompetition) : Nat := c.id.getD 0

def compRowOf (c : FDCompetition) : CompetitionRow :=
  { area_id := c.area.bind (·.id), name := c.name, code := c.code,
    type := c.type, emblem := c.emblem, last_updated := c.lastUpdated,
    as_competition_id := c.as_competition_id }

/-- Merge function of the competitions upsert (full overwrite). -/
def applyComp (_old : Option CompetitionRow) (c : FDCompetition) : CompetitionRow :=
  compRowOf c

/-- upsert_competitions: rows for competitions with a truthy id; when any
exist, the areas nested in the payload are upserted first, then the
competitions. -/
def upsert_competitions (areasT : Tbl Nat AreaRow) (compsT : Tbl Nat CompetitionRow)
    (comps_data : List FDCompetition) : Tbl Nat AreaRow × Tbl Nat CompetitionRow :=
  let values := comps_data.filter (fun c => natTruthy c.id)
  if values.isEmpty then (areasT, compsT)
  else (upsert_areas areasT (comps_data.filterMap (·.area)),
        upsertBatch compKey applyComp compsT values)

/-- One staged value of the matches upsert: match_id plus every column of
the matches table written by upsert_matches_basic.  raw_data holds the
json.dumps snapshot of the source payload, details_populated the literal
FALSE. -/
structure MatchVal where
  match_id : Nat
  competition_id : Nat
  season_year : Nat
  utc_date : Option String
  status : Option String
  matchday : Option Int
  stage : Option String
  group_name : Option String
  home_team_id : Option Nat
  away_team_id : Option Nat
  score_winner : Option String
  score_duration : Option String
  score_fulltime_home : Option Int
  score_fulltime_away : Option Int
  score_halftime_home : Option Int
  score_halftime_away : Option Int
  last_updated : Option String
  raw_data : FDMatch
  details_populated : Bool
deriving DecidableEq

def matchValue (competition_id season_year : Nat) (m : FDMatch) : MatchVal :=
  { match_id := m.id.getD 0, competition_id := competition_id,
    season_year := season_year, utc_date := m.utcDate, status := m.status,
    matchday := m.matchday, stage := m.stage, group_name := m.group,
    home_team_id := m.homeTeam.bind (·.id), away_team_id := m.awayTeam.bind (·.id),
    score_winner := m.score.winner, score_duration := m.score.duration,
    score_fulltime_home := m.score.fullTime.home,
    score_fulltime_away := m.score.fullTime.away,
    score_halftime_home := m.score.halfTime.home,
    score_halftime_away := m.score.halfTime.away,
    last_updated := m.lastUpdated, raw_data := m, details_populated := false }

def matchKey (v : MatchVal) : Nat := v.match_id

/-- Merge function of the matches upsert (full overwrite, including
details_populated = FALSE which equals the inserted literal). -/
def applyMatchFD (_old : Option MatchVal) (v : MatchVal) : MatchVal := v

/-- The home/away team payloads staged for upsert_teams by a single match
(only truthy team dicts with truthy ids are appended). -/
def matchTeamRefs (m : FDMatch) : List FDTeam :=
  (match m.homeTeam with
   | some ht => if natTruthy ht.id then [ht] else []
   | none => []) ++
  (match m.awayTeam with
   | some at_ => if natTruthy at_.id then [at_] else []
   | none => [])

/-- upsert_matches_basic: matches without a truthy id are skipped; the
teams referenced by the remaining matches are upserted first, then the
match rows. -/
def upsert_matches_basic (teamsT : Tbl Nat TeamRow) (matchesT : Tbl Nat MatchVal)
    (competition_id season_year : Nat) (matches_data : List FDMatch) :
    Tbl Nat TeamRow × Tbl Nat MatchVal :=
  let ms := matches_data.filter (fun m => natTruthy m.id)
  let values := ms.map (matchValue competition_id season_year)
  if values.isEmpty then (teamsT, matchesT)
  else (upsert_teams teamsT (ms.flatMap matchTeamRefs),
        upsertBatch matchKey applyMatchFD matchesT values)

/-! ### populator.py: upsert_standings -/

/-- Natural key of a standings_lists row:
(competition_id, season_year, type, stage, group_name). -/
abbrev SLKey : Type := Nat × Nat × Option String × Option String × Option String

def standingKey (competition_id season_year : Nat) (st : FDStanding) : SLKey :=
  (competition_id, season_year, st.type, st.stage, st.group)

/-- The standings_lists INSERT ... ON CONFLICT DO UPDATE SET
competition_id = EXCLUDED.competition_id RETURNING standings_list_id:
a present natural key keeps its row (the updated column is part of the
key, hence unchanged) and returns the stored id; an absent key allocates
the next BIGSERIAL id.  Result: (returned id, table, next id). -/
def getOrCreateStandingsList (lists : Tbl SLKey Nat) (next : Nat) (k : SLKey) :
    Nat × Tbl SLKey Nat × Nat :=
  match lists k with
  | some lid => (lid, lists, next)
  | none => (next, fun q => if q = k then some next else lists q, next + 1)

/-- One staged value of the standing_rows upsert. -/
structure SRowVal where
  standings_list_id : Nat
  team_id : Nat
  position : Option Int
  played_games : Option Int
  form : Option String
  won : Option Int
  draw : Option Int
  lost : Option Int
  points : Option Int
  goals_for : Option Int
  goals_against : Option Int
  goal_difference : Option Int
deriving DecidableEq

def sRowKey (v : SRowVal) : Nat × Nat := (v.standings_list_id, v.team_id)

/-- Merge function of the standing_rows upsert (full overwrite). -/
def applySRow (_old : Option SRowVal) (v : SRowVal) : SRowVal := v

def sRowValue (standings_list_id : Nat) (r : FDStandingRow) : SRowVal :=
  { standings_list_id := standings_list_id,
    team_id := (r.team.bind (·.id)).getD 0, position := r.position,
    played_games := r.playedGames, form := r.form, won := r.won,
    draw := r.draw, lost := r.lost, points := r.points,
    goals_for := r.goalsFor, goals_against := r.goalsAgainst,
    goal_difference := r.goalDifference }

/-- Row values staged for one standing (rows without a truthy team id are
skipped). -/
def sRowValues (standings_list_id : Nat) (table : List FDStandingRow) : List SRowVal :=
  (table.filter (fun r => natTruthy (r.team.bind (·.id)))).map (sRowValue standings_list_id)

/-- State touched by upsert_standings: the standings_lists table with its
BIGSERIAL allocator, the standing_rows table and the teams table. -/
structure StandingsState where
  standings_lists : Tbl SLKey Nat
  next_list_id : Nat
  standing_rows : Tbl (Nat × Nat) SRowVal
  teams : Tbl Nat TeamRow

/-- Processing of one standing inside upsert_standings: get or create the
standings_lists row, upsert the teams of the table, then the rows keyed by
the returned standings_list_id.  (A standing with an empty table is skipped
after the list row was created; since empty batches change nothing this is
the same as running the empty upserts.) -/
def upsertStandingStep (competition_id season_year : Nat) (s : StandingsState)
    (standing : FDStanding) : StandingsState :=
  let r := getOrCreateStandingsList s.standings_lists s.next_list_id
      (standingKey competition_id season_year standing)
  { standings_lists := r.2.1, next_list_id := r.2.2,
    standing_rows := upsertBatch sRowKey applySRow s.standing_rows
      (sRowValues r.1 standing.table),
    teams := upsert_teams s.teams (standing.table.filterMap (·.team)) }

/-- upsert_standings: every standing of the response processed in order. -/
def upsert_standings (s : StandingsState) (competition_id season_year : Nat)
    (standings_data : List FDStanding) : StandingsState :=
  standings_data.foldl (upsertStandingStep competition_id season_year) s

/-- The standings_lists/allocator component of upsert_standings in
isolation: fold of the get-or-create over the natural keys. -/
def listsPass (p : Tbl SLKey Nat × Nat) (ks : List SLKey) : Tbl SLKey Nat × Nat :=
  ks.foldl (fun p k =>
    let r := getOrCreateStandingsList p.1 p.2 k
    (r.2.1, r.2.2)) p

/-- The concatenation of the standing_rows batches of upsert_standings,
with each standing's list id read from a given standings_lists table. -/
def standingsRowBatches (L : Tbl SLKey Nat) (competition_id season_year : Nat)
    (data : List FDStanding) : List SRowVal :=
  data.flatMap (fun st =>
    sRowValues ((L (standingKey competition_id season_year st)).getD 0) st.table)

/-- The concatenation of the team value batches of upsert_standings. -/
def standingsTeamBatches (data : List FDStanding) : List FDTeam :=
  data.flatMap (fun st => teamUpsertValues (st.table.filterMap (·.team)))

/-! ### populator.py: api-sports.io (AS) payload shapes and transformers -/

/-- The constant offset added to every AS id to keep it out of the FD id
space (populator.py: AS_ID_OFFSET = 1_000_000). -/
def AS_ID_OFFSET : Nat := 1000000

structure ASTeamInfo where
  id : Option Nat
  name : Option String
  code : Option String
  country : Option String
  founded : Option Int
  national : Option Bool
  logo : Option String
deriving DecidableEq

structure ASVenueInfo where
  id : Option Nat
  name : Option String
  address : Option String
  city : Option String
  capacity : Option Int
  surface : Option String
  image : Option String
deriving DecidableEq

/-- One element of an AS /teams response: item.get("team", {}) and
item.get("venue", {}); an absent sub-dict behaves as the all-none value. -/
structure ASTeamItem where
  team : ASTeamInfo
  venue : ASVenueInfo
deriving DecidableEq

/-- transform_as_teams: AS teams with a truthy id are mapped to FD format
with local id = native id + AS_ID_OFFSET and the native id kept in
as_team_id; now is the datetime.now(pytz.UTC).isoformat() string. -/
def transform_as_teams (now : String) (as_teams_data : List ASTeamItem) : List FDTeam :=
  (as_teams_data.filter (fun item => natTruthy item.team.id)).map (fun item =>
    { id := some (item.team.id.getD 0 + AS_ID_OFFSET),
      area := none,
      name := item.team.name,
      shortName := item.team.name,
      tla := item.team.code,
      crest := item.team.logo,
      address := item.venue.address,
      website := none,
      founded := item.team.founded,
      clubColors := none,
      venue := item.venue.name,
      lastUpdated := some now,
      as_team_id := item.team.id })

structure ASStatusInfo where
  short : Option String
deriving DecidableEq

structure ASFixtureInfo where
  id : Option Nat
  date : Option String
  timestamp : Option Int
  status : ASStatusInfo
deriving DecidableEq

structure ASLeagueInfo where
  round : Option String
  group : Option String
deriving DecidableEq

structure ASTeamSide where
  id : Option Nat
  name : Option String
  winner : Option Bool
deriving DecidableEq

structure ASTeamsPair where
  home : ASTeamSide
  away : ASTeamSide
deriving DecidableEq

structure ASGoalsPair where
  home : Option Int
  away : Option Int
deriving DecidableEq

structure ASHalftimePair where
  home : Option Int
  away : Option Int
deriving DecidableEq

structure ASScoreInfo where
  halftime : ASHalftimePair
deriving DecidableEq

/-- One element of an AS /fixtures response (sub-dicts read with .get
default to the all-none value). -/
structure ASMatchItem where
  fixture : ASFixtureInfo
  league : ASLeagueInfo
  teams : ASTeamsPair
  goals : ASGoalsPair
  score : ASScoreInfo
deriving DecidableEq

/-- The AS-to-FD status code map of transform_as_matches; an unknown or
absent short code falls back to SCHEDULED. -/
def as_status_map (short : Option String) : String :=
  let m : List (String × String) :=
    [("TBD", "SCHEDULED"), ("NS", "SCHEDULED"), ("1H", "IN_PLAY"),
     ("HT", "IN_PLAY"), ("2H", "IN_PLAY"), ("ET", "IN_PLAY"),
     ("P", "IN_PLAY"), ("FT", "FINISHED"), ("AET", "FINISHED"),
     ("PEN", "FINISHED"), ("BT", "IN_PLAY"), ("SUSP", "PAUSED"),
     ("INT", "PAUSED"), ("PST", "POSTPONED"), ("CANC", "CANCELED"),
     ("ABD", "CANCELED"), ("AWD", "FINISHED"), ("WO", "FINISHED")]
  match short with
  | some s => ((m.find? (fun p => decide (p.1 = s))).map Prod.snd).getD "SCHEDULED"
  | none => "SCHEDULED"

/-- The winner map of transform_as_matches. -/
def as_winner_map : Option Bool → String
  | some true => "HOME_TEAM"
  | some false => "AWAY_TEAM"
  | none => "DRAW"

/-- Digit runs of a string, left to right, each run read as a number
(re.findall of one-or-more digits followed by int conversion). -/
def digitRunsAux : List Char → Option Nat → List Nat → List Nat
  | [], cur, acc =>
      match cur with
      | some n => acc ++ [n]
      | none => acc
  | c :: rest, cur, acc =>
      if c.isDigit then
        digitRunsAux rest (some ((cur.getD 0) * 10 + (c.toNat - 48))) acc
      else
        match cur with
        | some n => digitRunsAux rest none (acc ++ [n])
        | none => digitRunsAux rest none acc

def digitRuns (s : String) : List Nat := digitRunsAux s.toList none []

/-- Matchday extraction of transform_as_matches: the last number of the
round string (e.g. Regular Season - 3 gives 3); none when no digits. -/
def lastMatchdayNum (s : String) : Option Nat := (digitRuns s).getLast?

/-- transform_as_matches: AS fixtures with a truthy id are mapped to FD
format with id = native id + AS_ID_OFFSET and home/away team ids
native id (defaulting to 0) + AS_ID_OFFSET; fromtimestamp renders the unix
timestamp as the datetime.fromtimestamp iso string.  The dict keys
competition_id, season_year and raw_data also placed in the transformed
dict are not read back by upsert_matches_basic (which receives the
competition and season as arguments) and are omitted from the FD shape. -/
def transform_as_matches (fromtimestamp : Int → String)
    (as_fixtures_data : List ASMatchItem)
    (competition_id_offset season_year : Nat) : List FDMatch :=
  let _ := competition_id_offset
  let _ := season_year
  (as_fixtures_data.filter (fun m => natTruthy m.fixture.id)).map (fun m =>
    { id := some (m.fixture.id.getD 0 + AS_ID_OFFSET),
      utcDate := m.fixture.date,
      status := some (as_status_map m.fixture.status.short),
      matchday := (lastMatchdayNum ((m.league.round).getD "0")).map Int.ofNat,
      stage := none,
      group := m.league.group,
      homeTeam := some
        { id := some (m.teams.home.id.getD 0 + AS_ID_OFFSET),
          area := none, name := m.teams.home.name, shortName := none,
          tla := none, crest := none, address := none, website := none,
          founded := none, clubColors := none, venue := none,
          lastUpdated := none, as_team_id := none },
      awayTeam := some
        { id := some (m.teams.away.id.getD 0 + AS_ID_OFFSET),
          area := none, name := m.teams.away.name, shortName := none,
          tla := none, crest := none, address := none, website := none,
          founded := none, clubColors := none, venue := none,
          lastUpdated := none, as_team_id := none },
      score :=
        { winner := some (as_winner_map m.teams.home.winner),
          duration := some "REGULAR",
          fullTime := { home := m.goals.home, away := m.goals.away },
          halfTime := { home := m.score.halftime.home,
                        away := m.score.halftime.away } },
      lastUpdated := some (fromtimestamp (m.fixture.timestamp.getD 0)) })

/-- The local competition id built by discover_as_tasks for an AS league:
comp_id_offset = as_league id + AS_ID_OFFSET. -/
def discover_as_comp_id (as_league_id : Nat) : Nat := as_league_id + AS_ID_OFFSET

/-- The native AS league id recovered by process_season_task_as when
dispatching an AS task: as_comp_id = comp_id_offset - AS_ID_OFFSET. -/
def as_task_native_comp_id (comp_id_offset : Nat) : Nat :=
  comp_id_offset - AS_ID_OFFSET

/-! ### populator.py: get_or_create_as_area -/

structure ASCountry where
  name : Option String
  code : Option String
  flag : Option String
deriving DecidableEq

/-- One row of the areas relation as seen by get_or_create_as_area, which
queries it by name and by MAX(area_id). -/
structure AreaRec where
  area_id : Nat
  name : Option String
  code : Option String
  flag : Option String
deriving DecidableEq

/-- The single-row upsert_areas call made by get_or_create_as_area, on the
relational view: ON CONFLICT (area_id) DO UPDATE overwrites the row,
otherwise the row is appended. -/
def relUpsertArea (rel : List AreaRec) (a : AreaRec) : List AreaRec :=
  if rel.any (fun r => decide (r.area_id = a.area_id)) then
    rel.map (fun r => if r.area_id = a.area_id then a else r)
  else rel ++ [a]

/-- The v8.1 name-resolution of get_or_create_as_area: the country name,
falling back to the country code when the name is falsy and to the literal
Unknown Area when both are. -/
def resolveAreaName (c : ASCountry) : String :=
  if ¬ strFalsy c.name then c.name.getD ""
  else if ¬ strFalsy c.code then c.code.getD ""
  else "Unknown Area"

/-- get_or_create_as_area (v8.1): an empty country payload yields None; the
area name falls back from the country name to its code to Unknown Area; a
row with the resolved name returns its id; otherwise a new row is created
with id (MAX(area_id) or 2000) + 1 (Python or: 2000 stands in when the MAX
query returns NULL, i.e. the table is empty, or 0).  Result: (returned id,
areas relation). -/
def get_or_create_as_area (rel : List AreaRec) (as_country : Option ASCountry) :
    Option Nat × List AreaRec :=
  match as_country with
  | none => (none, rel)
  | some c =>
    let country_name : String := resolveAreaName c
    match rel.find? (fun r => decide (r.name = some country_name)) with
    | some r => (some r.area_id, rel)
    | none =>
      let max_id := (rel.map (·.area_id)).max?
      let new_area_id := pyOrNat max_id 2000 + 1
      (some new_area_id,
       relUpsertArea rel
         { area_id := new_area_id, name := some country_name,
           code := c.code, flag := c.flag })

/-! ### populator.py: KeyRotator (FD key rotation and cooldowns)

Wall-clock time is modelled as a rational number of seconds; time.sleep
advances the clock.  The PriorityQueue holds (next-available-time, key)
pairs and pops a minimal one. -/

/-- Cooldown after a successful FD call (KeyRotator.release: 6.5 s). -/
def FD_SUCCESS_COOLDOWN : ℚ := 6.5

/-- Penalty cooldown after a 429 or other major error
(KeyRotator.penalize: 70 s). -/
def FD_PENALTY_COOLDOWN : ℚ := 70

structure RotatorState where
  queue : List (ℚ × String)
  now : ℚ
deriving DecidableEq

/-- Removal of a minimal-time pair from the priority queue (PriorityQueue
orders pairs lexicographically; between equal times it compares keys, and
our theorems only use time minimality). -/
def popMinQ : List (ℚ × String) → Option ((ℚ × String) × List (ℚ × String))
  | [] => none
  | x :: xs =>
      match popMinQ xs with
      | none => some (x, [])
      | some (m, rest) => if x.1 ≤ m.1 then some (x, xs) else some (m, x :: rest)

/-- KeyRotator.get_next: pop the soonest-available key and, when its
next-free time lies in the future, sleep until it (the call blocks on an
empty queue, modelled as none). -/
def rotator_get_next (s : RotatorState) : Option (String × RotatorState) :=
  match popMinQ s.queue with
  | none => none
  | some ((next_free_time, key), rest) =>
      let now' := if next_free_time > s.now then next_free_time else s.now
      some (key, { queue := rest, now := now' })

/-- KeyRotator.release: re-enqueue the key with a fresh 6.5 s cooldown. -/
def rotator_release (s : RotatorState) (key : String) : RotatorState :=
  { s with queue := s.queue ++ [(s.now + FD_SUCCESS_COOLDOWN, key)] }

/-- KeyRotator.penalize: re-enqueue the key with a 70 s penalty cooldown. -/
def rotator_penalize (s : RotatorState) (key : String) : RotatorState :=
  { s with queue := s.queue ++ [(s.now + FD_PENALTY_COOLDOWN, key)] }

/-- Outcome of one api_call_fd request after a key was obtained: a 2xx
success (fd_rotator.release), a 403 or 429 response, or another failure
after get_next (raise_for_status, network error: the except handler
penalizes the key once). -/
inductive FDCallOutcome where
  | ok : FDCallOutcome
  | limited : FDCallOutcome
  | otherError : FDCallOutcome
deriving DecidableEq

/-- A burst of api_call_fd requests: each request takes the next key and
is issued at the clock value reached after the cooldown sleep.  A success
re-enqueues the key once through release.  A 403/429 response penalizes
the key in the status branch and then RAISES; the except handler catches
the exception and, key being non-empty, penalizes the SAME key a second
time before re-raising - so the queue permanently gains a second entry
for the key.  Any other failure after get_next penalizes once (except
handler only).  Returns the issue times. -/
def rotatorBurst (s : RotatorState) (outcomes : List FDCallOutcome) :
    List ℚ × RotatorState :=
  match outcomes with
  | [] => ([], s)
  | out :: rest =>
      match rotator_get_next s with
      | none => ([], s)
      | some (key, s1) =>
          let s2 :=
            match out with
            | FDCallOutcome.ok => rotator_release s1 key
            | FDCallOutcome.limited =>
                rotator_penalize (rotator_penalize s1 key) key
            | FDCallOutcome.otherError => rotator_penalize s1 key
          let r := rotatorBurst s2 rest
          (s1.now :: r.1, r.2)

/-- The number of requests of a burst issued inside the sliding window
[w, w + 60). -/
def windowCount (times : List ℚ) (w : ℚ) : Nat :=
  times.countP (fun t => decide (w ≤ t ∧ t < w + 60))

/-! ### populator.py: backfill progress ledger -/

/-- One row of backfill_progress, minus the (competition_id, season_year)
key; last_updated (always set to NOW()) is omitted. -/
structure ProgRow where
  status : String
  task_type : String
deriving DecidableEq

/-- The backfill_progress relation: rows listed in insertion order, keyed
by (competition_id, season_year). -/
abbrev ProgTable : Type := List ((Nat × Nat) × ProgRow)

def progLookup (tbl : ProgTable) (k : Nat × Nat) : Option ProgRow :=
  (tbl.find? (fun p => decide (p.1 = k))).map Prod.snd

/-- A discovered backfill task tuple:
(competition_id, season_year, comp_name, is_current, task_type). -/
structure BackfillTask where
  competition_id : Nat
  season_year : Nat
  comp_name : String
  is_current : Bool
  task_type : String
deriving DecidableEq

def taskKey (t : BackfillTask) : Nat × Nat := (t.competition_id, t.season_year)

/-- SET task_type on a progress row. -/
def withTaskType (task_type : String) (r : ProgRow) : ProgRow :=
  { r with task_type := task_type }

/-- SET status on a progress row. -/
def withStatus (status : String) (r : ProgRow) : ProgRow :=
  { r with status := status }

/-- One row of the registration insert of get_pending_tasks:
INSERT (competition_id, season_year, task_type) ON CONFLICT DO UPDATE SET
task_type = EXCLUDED.task_type; an inserted row takes the column default
status PENDING, a conflicting row only has its task_type replaced. -/
def registerTaskKey (tbl : ProgTable) (k : Nat × Nat) (task_type : String) :
    ProgTable :=
  if tbl.any (fun p => decide (p.1 = k)) then
    tbl.map (fun p => if p.1 = k then (p.1, withTaskType task_type p.2) else p)
  else tbl ++ [(k, { status := "PENDING", task_type := task_type })]

def registerTasks (tbl : ProgTable) (tasks : List BackfillTask) : ProgTable :=
  tasks.foldl (fun tb t => registerTaskKey tb (taskKey t) t.task_type) tbl

/-- get_pending_tasks: register the discovered task universe, then keep
the discovered tasks whose key is among the rows with status neither
COMPLETED nor FAILED.  Returns the updated ledger and the filtered list. -/
def get_pending_tasks (tbl : ProgTable) (all_discovered_tasks : List BackfillTask) :
    ProgTable × List BackfillTask :=
  let tbl1 := registerTasks tbl all_discovered_tasks
  (tbl1, all_discovered_tasks.filter (fun t =>
    match progLookup tbl1 (taskKey t) with
    | some row => decide (row.status ≠ "COMPLETED") && decide (row.status ≠ "FAILED")
    | none => false))

/-- UPDATE backfill_progress SET status = ... WHERE key matches (existing
rows only). -/
def setStatus (tbl : ProgTable) (k : Nat × Nat) (st : String) : ProgTable :=
  tbl.map (fun p => if p.1 = k then (p.1, withStatus st p.2) else p)

/-- Outcome of executing one backfill task (the fetch/upsert block of the
worker): ok, a 403 Forbidden raise from api_call_fd (whose message
contains the text Forbidden (403)), a 429 raise, the AS daily-limit raise
(whose message contains the text limit), or any other exception. -/
inductive TaskOutcome where
  | ok
  | forbidden403
  | rateLimited429
  | dailyLimit
  | otherError
deriving DecidableEq

/-- The FD worker's except-branch test: "Forbidden (403)" in str(e). -/
def fdExcMentions403 : TaskOutcome → Bool
  | .forbidden403 => true
  | _ => false

/-- The AS worker's except-branch test: "limit" in str(e). -/
def asExcMentionsLimit : TaskOutcome → Bool
  | .dailyLimit => true
  | _ => false

/-- process_season_task_fd, progress-ledger effect: the task row is set to
PENDING (committed) at the start; on success all staged data plus the
COMPLETED update commit; on an exception the transaction is rolled back
and, exactly when the message contains Forbidden (403), the row is set to
FAILED in a fresh transaction.  (The data upserts are not part of this
model.)  Returns (worker result, ledger). -/
def process_season_task_fd (tbl : ProgTable) (task : BackfillTask)
    (outcome : TaskOutcome) : Bool × ProgTable :=
  let t1 := setStatus tbl (taskKey task) "PENDING"
  match outcome with
  | .ok => (true, setStatus t1 (taskKey task) "COMPLETED")
  | o =>
      if fdExcMentions403 o then (false, setStatus t1 (taskKey task) "FAILED")
      else (false, t1)

/-- process_season_task_as, progress-ledger effect: as the FD worker, but
the except branch never sets FAILED — it only distinguishes the daily
limit message for logging, and in every failure case the row keeps the
committed PENDING status. -/
def process_season_task_as (tbl : ProgTable) (task : BackfillTask)
    (outcome : TaskOutcome) : Bool × ProgTable :=
  let t1 := setStatus tbl (taskKey task) "PENDING"
  match outcome with
  | .ok => (true, setStatus t1 (taskKey task) "COMPLETED")
  | _ => (false, t1)

/-- process_task_wrapper: dispatch by task_type. -/
def process_task_wrapper (tbl : ProgTable) (task : BackfillTask)
    (outcome : TaskOutcome) : Bool × ProgTable :=
  if task.task_type = "AS" then process_season_task_as tbl task outcome
  else if task.task_type = "FD" then process_season_task_fd tbl task outcome
  else (false, tbl)

/-- The executor.map fan-out of one sweep: every selected task is
processed in turn by its worker; each worker returns True or False and a
failure never stops the remaining tasks. -/
def sweepExec (outcomes : BackfillTask → TaskOutcome)
    (start : ProgTable × List Bool) (sel : List BackfillTask) :
    ProgTable × List Bool :=
  sel.foldl (fun acc t =>
    let pr := process_task_wrapper acc.1 t (outcomes t)
    (pr.2, acc.2 ++ [pr.1])) start

/-- One sweep of the main retry loop: get_pending_tasks then every
selected task processed by its worker (a failed task only yields a False
result; it never aborts the sweep).  Returns the ledger, the executed
tasks and the per-task results. -/
def runSweep (tbl : ProgTable) (discovered : List BackfillTask)
    (outcomes : BackfillTask → TaskOutcome) :
    ProgTable × List BackfillTask × List Bool :=
  let r := get_pending_tasks tbl discovered
  let final := sweepExec outcomes (r.1, []) r.2
  (final.1, r.2, final.2)

/-! ### db_utils.py helpers -/

/-- db_utils.safe_int: None stays None, otherwise int conversion (payload
values are modelled as already numeric; a non-numeric value would give
None). -/
def safe_int (v : Option Int) : Option Int := v

/-- db_utils.safe_str: None stays None, otherwise str conversion (payload
values are modelled as already strings). -/
def safe_str (v : Option String) : Option String := v

/-! ### sync.py: fixture payload shape (api-sports /fixtures response)

Fields read with a plain subscript in transform_fixture_data are required;
fields read with .get, and JSON null values, are Option. -/

structure SyncVenueRef where
  id : Option Nat
  name : Option String
  city : Option String
deriving DecidableEq

structure SyncStatusInfo where
  long : String
  short : String
  elapsed : Option Int
deriving DecidableEq

structure SyncFixtureInfo where
  id : Nat
  referee : Option String
  date : String
  timestamp : Int
  venue : Option SyncVenueRef
  status : SyncStatusInfo
deriving DecidableEq

structure SyncLeagueInfo where
  id : Nat
  season : Nat
  name : Option String
  type : Option String
  logo : Option String
  country : Option String
deriving DecidableEq

structure SyncTeamRef where
  id : Nat
  name : Option String
  logo : Option String
deriving DecidableEq

structure SyncTeamsPair where
  home : SyncTeamRef
  away : SyncTeamRef
deriving DecidableEq

structure SyncGoalsPair where
  home : Option Int
  away : Option Int
deriving DecidableEq

structure SyncScorePair where
  home : Option Int
  away : Option Int
deriving DecidableEq

structure SyncScoreInfo where
  halftime : SyncScorePair
  extratime : SyncScorePair
  penalty : SyncScorePair
deriving DecidableEq

structure SyncFixture where
  fixture : SyncFixtureInfo
  league : SyncLeagueInfo
  teams : SyncTeamsPair
  goals : SyncGoalsPair
  score : SyncScoreInfo
deriving DecidableEq

/-- The venue_id extraction of transform_fixture_data: the venue id when
the venue dict and its id are truthy, else None. -/
def syncVenueId (f : SyncFixture) : Option Nat :=
  match f.fixture.venue with
  | some v => if natTruthy v.id then v.id else none
  | none => none

/-- The update_data dict built by transform_fixture_data: fixture_id plus
every column staged for the fixtures upsert. -/
structure FixRow where
  fixture_id : Nat
  referee : Option String
  date : String
  timestamp : Int
  status_long : String
  status_short : String
  elapsed : Option Int
  home_winner : Option Bool
  away_winner : Option Bool
  goals_home : Int
  goals_away : Int
  score_ht_home : Option Int
  score_ht_away : Option Int
  score_ft_home : Option Int
  score_ft_away : Option Int
  score_et_home : Option Int
  score_et_away : Option Int
  score_pen_home : Option Int
  score_pen_away : Option Int
  league_id : Nat
  season_year : Nat
  home_team_id : Nat
  away_team_id : Nat
  venue_id : Option Nat
deriving DecidableEq

/-- sync.py transform_fixture_data.  The winner pair is computed from the
full-time goals alone (home_winner = goals_home > goals_away when both are
present, else None); goals_home/goals_away stored are the full-time plus
extra-time totals with None treated as 0. -/
def transform_fixture_data (f : SyncFixture) : Nat × FixRow :=
  let goals_home := safe_int f.goals.home
  let goals_away := safe_int f.goals.away
  let home_winner : Option Bool :=
    match goals_home, goals_away with
    | some gh, some ga => some (decide (gh > ga))
    | _, _ => none
  let away_winner : Option Bool :=
    match goals_home, goals_away with
    | some gh, some ga => some (decide (ga > gh))
    | _, _ => none
  let score_et_home := safe_int f.score.extratime.home
  let score_et_away := safe_int f.score.extratime.away
  let total_goals_home := pyOrInt goals_home 0 + pyOrInt score_et_home 0
  let total_goals_away := pyOrInt goals_away 0 + pyOrInt score_et_away 0
  (f.fixture.id,
   { fixture_id := f.fixture.id,
     referee := f.fixture.referee,
     date := f.fixture.date,
     timestamp := f.fixture.timestamp,
     status_long := f.fixture.status.long,
     status_short := f.fixture.status.short,
     elapsed := safe_int f.fixture.status.elapsed,
     home_winner := home_winner,
     away_winner := away_winner,
     goals_home := total_goals_home,
     goals_away := total_goals_away,
     score_ht_home := safe_int f.score.halftime.home,
     score_ht_away := safe_int f.score.halftime.away,
     score_ft_home := goals_home,
     score_ft_away := goals_away,
     score_et_home := score_et_home,
     score_et_away := score_et_away,
     score_pen_home := safe_int f.score.penalty.home,
     score_pen_away := safe_int f.score.penalty.away,
     league_id := f.league.id,
     season_year := f.league.season,
     home_team_id := f.teams.home.id,
     away_team_id := f.teams.away.id,
     venue_id := syncVenueId f })

/-! ### sync.py: table rows and merge functions -/

/-- Row of the fixtures table, minus the fixture_id key; the foreign-key
columns are nullable in the schema. -/
structure FixtureRowDB where
  referee : Option String
  date : String
  timestamp : Int
  status_long : String
  status_short : String
  elapsed : Option Int
  home_winner : Option Bool
  away_winner : Option Bool
  goals_home : Int
  goals_away : Int
  score_ht_home : Option Int
  score_ht_away : Option Int
  score_ft_home : Option Int
  score_ft_away : Option Int
  score_et_home : Option Int
  score_et_away : Option Int
  score_pen_home : Option Int
  score_pen_away : Option Int
  league_id : Option Nat
  season_year : Option Nat
  home_team_id : Option Nat
  away_team_id : Option Nat
  venue_id : Option Nat
deriving DecidableEq

def fixtureInsertRow (r : FixRow) : FixtureRowDB :=
  { referee := r.referee, date := r.date, timestamp := r.timestamp,
    status_long := r.status_long, status_short := r.status_short,
    elapsed := r.elapsed, home_winner := r.home_winner,
    away_winner := r.away_winner, goals_home := r.goals_home,
    goals_away := r.goals_away, score_ht_home := r.score_ht_home,
    score_ht_away := r.score_ht_away, score_ft_home := r.score_ft_home,
    score_ft_away := r.score_ft_away, score_et_home := r.score_et_home,
    score_et_away := r.score_et_away, score_pen_home := r.score_pen_home,
    score_pen_away := r.score_pen_away, league_id := some r.league_id,
    season_year := some r.season_year, home_team_id := some r.home_team_id,
    away_team_id := some r.away_team_id, venue_id := r.venue_id }

/-- Merge function of the fixtures upsert of update_fixtures_db: every
result/status column is set from EXCLUDED, while the foreign-key columns
are COALESCE(fixtures.col, EXCLUDED.col), i.e. only filled when previously
NULL. -/
def applyFixture : Option FixtureRowDB → FixRow → FixtureRowDB
  | none, r => fixtureInsertRow r
  | some old, r =>
    { old with
      referee := r.referee, date := r.date, timestamp := r.timestamp,
      status_long := r.status_long, status_short := r.status_short,
      elapsed := r.elapsed, home_winner := r.home_winner,
      away_winner := r.away_winner, goals_home := r.goals_home,
      goals_away := r.goals_away, score_ht_home := r.score_ht_home,
      score_ht_away := r.score_ht_away, score_ft_home := r.score_ft_home,
      score_ft_away := r.score_ft_away, score_et_home := r.score_et_home,
      score_et_away := r.score_et_away, score_pen_home := r.score_pen_home,
      score_pen_away := r.score_pen_away,
      league_id := old.league_id.or (some r.league_id),
      season_year := old.season_year.or (some r.season_year),
      home_team_id := old.home_team_id.or (some r.home_team_id),
      away_team_id := old.away_team_id.or (some r.away_team_id),
      venue_id := old.venue_id.or r.venue_id }

def fixKey (r : FixRow) : Nat := r.fixture_id

/-- Row of the teams table (sync schema), minus the team_id key. -/
structure SyncTeamRow where
  name : Option String
  code : Option String
  country : Option String
  founded : Option Int
  national : Option Bool
  logo_url : Option String
  venue_id : Option Nat
deriving DecidableEq

/-- One staged value of the teams upsert on the fixtures path (code,
founded and national are placeholders). -/
structure SyncTeamVal where
  team_id : Nat
  name : Option String
  code : Option String
  country : Option String
  founded : Option Int
  national : Option Bool
  logo_url : Option String
  venue_id : Option Nat
deriving DecidableEq

def syncTeamKey (v : SyncTeamVal) : Nat := v.team_id

def syncTeamInsertRow (v : SyncTeamVal) : SyncTeamRow :=
  { name := v.name, code := v.code, country := v.country,
    founded := v.founded, national := v.national, logo_url := v.logo_url,
    venue_id := v.venue_id }

/-- Merge function of the fixtures-path teams upsert: name, code, country
and logo_url are COALESCE(EXCLUDED.col, teams.col) (incoming preferred,
NULL falls back to the stored value); venue_id is
COALESCE(teams.venue_id, EXCLUDED.venue_id) (stored value preferred);
founded and national are not in the UPDATE list and keep their stored
values. -/
def applySyncTeamFix : Option SyncTeamRow → SyncTeamVal → SyncTeamRow
  | none, v => syncTeamInsertRow v
  | some old, v =>
    { old with
      name := v.name.or old.name,
      code := v.code.or old.code,
      country := v.country.or old.country,
      logo_url := v.logo_url.or old.logo_url,
      venue_id := old.venue_id.or v.venue_id }

/-- Row of the venues table, minus the venue_id key (columns written by
either venue upsert; columns absent from an INSERT default to NULL). -/
structure VenueRow where
  name : Option String
  address : Option String
  city : Option String
  country : Option String
  capacity : Option Int
  surface : Option String
  image_url : Option String
deriving DecidableEq

/-- One staged value of the fixtures-path venues upsert. -/
structure SyncVenueVal where
  venue_id : Nat
  name : Option String
  city : Option String
  country : Option String
deriving DecidableEq

def syncVenueKey (v : SyncVenueVal) : Nat := v.venue_id

/-- Merge function of the fixtures-path venues upsert: name, city and
country are set from EXCLUDED; the remaining columns are untouched (NULL
on first insert). -/
def applySyncVenueFix : Option VenueRow → SyncVenueVal → VenueRow
  | none, v =>
    { name := v.name, address := none, city := v.city, country := v.country,
      capacity := none, surface := none, image_url := none }
  | some old, v =>
    { old with name := v.name, city := v.city, country := v.country }

/-- Row of the leagues table, minus the league_id key. -/
structure LeagueRow where
  name : Option String
  type : Option String
  logo_url : Option String
  country_name : Option String
deriving DecidableEq

/-- One staged value of the leagues upsert. -/
structure SyncLeagueVal where
  league_id : Nat
  name : Option String
  type : Option String
  logo_url : Option String
  country_name : Option String
deriving DecidableEq

def syncLeagueKey (v : SyncLeagueVal) : Nat := v.league_id

/-- Merge function of the leagues upsert (every non-key column set from
EXCLUDED). -/
def applySyncLeague (_old : Option LeagueRow) (v : SyncLeagueVal) : LeagueRow :=
  { name := v.name, type := v.type, logo_url := v.logo_url,
    country_name := v.country_name }

/-- Merge function of the seasons upsert
(INSERT (year) ON CONFLICT DO NOTHING). -/
def applySeason (old : Option Unit) (_v : Nat) : Unit :=
  match old with
  | some u => u
  | none => ()

/-- Row of the enrichment_status table, minus the league_id key;
timestamps are rationals. -/
structure EnrichRow where
  status : String
  last_enriched_at : ℚ
deriving DecidableEq

/-- One staged value of the JIT enrichment_status insert. -/
structure EnrichVal where
  league_id : Nat
  status : String
  last_enriched_at : ℚ
deriving DecidableEq

def enrichKey (v : EnrichVal) : Nat := v.league_id

/-- Merge function of the JIT enrichment_status insert
(INSERT ... ON CONFLICT (league_id) DO NOTHING). -/
def applyEnrichNothing : Option EnrichRow → EnrichVal → EnrichRow
  | some old, _ => old
  | none, v => { status := v.status, last_enriched_at := v.last_enriched_at }

/-- Row of the standings table (sync schema), minus the
(league_id, season_year, team_id) key; update_date is NULL on first
insert and NOW() on update. -/
structure SyncStandingRow where
  rank : Option Int
  points : Option Int
  goals_diff : Option Int
  group_name : String
  form : Option String
  description : Option String
  played : Option Int
  win : Option Int
  draw : Option Int
  lose : Option Int
  goals_for : Option Int
  goals_against : Option Int
  update_date : Option ℚ
deriving DecidableEq

/-- The tables touched by sync.py, keyed by their primary keys. -/
structure SyncDb where
  fixtures : Tbl Nat FixtureRowDB
  teams : Tbl Nat SyncTeamRow
  venues : Tbl Nat VenueRow
  leagues : Tbl Nat LeagueRow
  seasons : Tbl Nat Unit
  enrichment_status : Tbl Nat EnrichRow
  standings : Tbl (Nat × Nat × Nat) SyncStandingRow

/-! ### sync.py: update_fixtures_db -/

/-- Worker of chunked, driven by a fuel argument bounding the number of
chunks so that the recursion is structural (fuel = list length always
suffices when 0 < n: every step consumes at least one element). -/
def chunkedGo (n : Nat) : Nat → List α → List (List α)
  | _, [] => []
  | 0, _ :: _ => []
  | fuel + 1, x :: xs =>
      if n = 0 then []
      else (x :: xs).take n :: chunkedGo n fuel ((x :: xs).drop n)

/-- sync.py chunked(iterable, n). -/
def chunked (l : List α) (n : Nat) : List (List α) :=
  chunkedGo n l.length l

/-- The psycopg2 execute_values page size (default page_size=100): a
statement over more than 100 rows is executed in successive pages of 100,
and a later cursor.fetchall() returns the rows of the last executed page
only. -/
def EXECUTE_VALUES_PAGE_SIZE : Nat := 100

def FIXTURE_UPSERT_CHUNK_SIZE : Nat := 250

/-- The live-ish status filter applied to the RETURNING rows of the
fixtures upsert. -/
def LIVE_STATUSES : List String :=
  ["TBD", "NS", "1H", "HT", "2H", "ET", "P", "INT", "FT"]

/-- Statuses of fixture values staged in one chunk that
cursor.fetchall() yields after execute_values: the RETURNING rows of the
last page only (each returned row's status_short equals the incoming
value's, because the upsert sets it from EXCLUDED). -/
def chunkFetchedRows (chunk : List FixRow) : List FixRow :=
  ((chunked chunk EXECUTE_VALUES_PAGE_SIZE).getLast?).getD []

/-- The fixture ids update_fixtures_db collects for the predictor: for
each 250-row chunk, the ids of the fetched (last-page) rows whose
status_short is live-ish. -/
def collectUpdatedIds (fixture_tuples : List FixRow) : List Nat :=
  ((chunked fixture_tuples FIXTURE_UPSERT_CHUNK_SIZE).flatMap (fun chunk =>
    (chunkFetchedRows chunk).filter
      (fun r => LIVE_STATUSES.contains r.status_short))).map (·.fixture_id)

/-- The teams_to_upsert entry staged for one side of a fixture. -/
def syncTeamValOf (f : SyncFixture) (tr : SyncTeamRef) (data : FixRow) :
    SyncTeamVal :=
  { team_id := tr.id, name := tr.name, code := none,
    country := f.league.country, founded := none, national := none,
    logo_url := tr.logo,
    venue_id := if data.home_team_id = tr.id then data.venue_id else none }

/-- The venues_to_upsert entry staged for a fixture with a truthy
venue_id. -/
def syncVenueValOf (f : SyncFixture) (data : FixRow) : SyncVenueVal :=
  { venue_id := data.venue_id.getD 0,
    name := f.fixture.venue.bind (·.name),
    city := f.fixture.venue.bind (·.city),
    country := f.league.country }

/-- The leagues_to_upsert entry staged for a fixture. -/
def syncLeagueValOf (f : SyncFixture) : SyncLeagueVal :=
  { league_id := f.league.id, name := f.league.name, type := f.league.type,
    logo_url := f.league.logo, country_name := f.league.country }

/-- Collection phase of update_fixtures_db: teams, venues and leagues are
de-duplicated first-entry-wins through guarded dict inserts keyed by their
truthy ids; seasons are a set of years.  The guarded insertions performed
while looping over the fixtures are listed per fixture and folded into a
fresh dict. -/
def teamEntriesOf (f : SyncFixture) : List (Nat × SyncTeamVal) :=
  let data := (transform_fixture_data f).2
  (if f.teams.home.id ≠ 0 then
     [(f.teams.home.id, syncTeamValOf f f.teams.home data)] else []) ++
  (if f.teams.away.id ≠ 0 then
     [(f.teams.away.id, syncTeamValOf f f.teams.away data)] else [])

def collectTeams (fixtures_data : List SyncFixture) : List SyncTeamVal :=
  (dictInsertManyIfAbsent [] (fixtures_data.flatMap teamEntriesOf)).map Prod.snd

def venueEntriesOf (f : SyncFixture) : List (Nat × SyncVenueVal) :=
  let data := (transform_fixture_data f).2
  match data.venue_id with
  | some vid => if vid ≠ 0 then [(vid, syncVenueValOf f data)] else []
  | none => []

def collectVenues (fixtures_data : List SyncFixture) : List SyncVenueVal :=
  (dictInsertManyIfAbsent [] (fixtures_data.flatMap venueEntriesOf)).map Prod.snd

def leagueEntriesOf (f : SyncFixture) : List (Nat × SyncLeagueVal) :=
  if f.league.id ≠ 0 then [(f.league.id, syncLeagueValOf f)] else []

def collectLeagues (fixtures_data : List SyncFixture) : List SyncLeagueVal :=
  (dictInsertManyIfAbsent [] (fixtures_data.flatMap leagueEntriesOf)).map Prod.snd

def collectSeasons (fixtures_data : List SyncFixture) : List Nat :=
  (fixtures_data.map (fun f => f.league.season)).dedup

/-- update_fixtures_db: the parent entities (seasons, venues, teams,
leagues, JIT enrichment rows for new leagues) and then the fixtures are
upserted; returns the new database and the set of live-ish fixture ids the
paged RETURNING collection yields.  priority_ids models the
PRIORITY_LEAGUE_IDS global and thirty_days_ago the staged
last_enriched_at value. -/
def update_fixtures_db (priority_ids : List Nat) (thirty_days_ago : ℚ)
    (db : SyncDb) (fixtures_data : List SyncFixture) :
    SyncDb × Finset Nat :=
  if fixtures_data.isEmpty then (db, ∅)
  else
    let fixture_tuples := fixtures_data.map (fun f => (transform_fixture_data f).2)
    let leagues := collectLeagues fixtures_data
    let enrich_values := leagues.map (fun l =>
      { league_id := l.league_id,
        status := if priority_ids.contains l.league_id then "PRIORITY" else "PENDING",
        last_enriched_at := thirty_days_ago : EnrichVal })
    let db1 : SyncDb :=
      { fixtures := upsertBatch fixKey applyFixture db.fixtures fixture_tuples,
        teams := upsertBatch syncTeamKey applySyncTeamFix db.teams
          (collectTeams fixtures_data),
        venues := upsertBatch syncVenueKey applySyncVenueFix db.venues
          (collectVenues fixtures_data),
        leagues := upsertBatch syncLeagueKey applySyncLeague db.leagues leagues,
        seasons := upsertBatch id applySeason db.seasons
          (collectSeasons fixtures_data),
        enrichment_status := upsertBatch enrichKey applyEnrichNothing
          db.enrichment_status (if leagues.isEmpty then [] else enrich_values),
        standings := db.standings }
    (db1, (collectUpdatedIds fixture_tuples).toFinset)

/-! ### sync.py: poll cycle and predictor trigger -/

/-- One poll cycle over the three synced dates: each worker fetches one
date's fixtures and, when any were received, runs update_fixtures_db; the
per-worker id sets are unioned.  (The workers run concurrently but only
the COALESCE-guarded columns depend on interleaving, never the returned
ids, so they are applied in date order.) -/
def pollCycle (priority_ids : List Nat) (thirty_days_ago : ℚ) (db : SyncDb)
    (payloads : List (List SyncFixture)) : SyncDb × Finset Nat :=
  payloads.foldl (fun acc payload =>
    if payload.isEmpty then acc
    else
      let r := update_fixtures_db priority_ids thirty_days_ago acc.1 payload
      (r.1, acc.2 ∪ r.2)) (db, ∅)

/-- trigger_predictor: an empty id set returns without running
predictor.py; otherwise predictor.py is invoked with exactly the given
ids (modelled as the invocation argument). -/
def trigger_predictor (fixture_ids : Finset Nat) : Option (Finset Nat) :=
  if fixture_ids = ∅ then none else some fixture_ids

/-- The predictor invocation of one main_loop_async cycle: the unioned
updated-id set is passed to trigger_predictor only when non-empty. -/
def cyclePredictorCall (priority_ids : List Nat) (thirty_days_ago : ℚ)
    (db : SyncDb) (payloads : List (List SyncFixture)) : Option (Finset Nat) :=
  let all_updated_ids := (pollCycle priority_ids thirty_days_ago db payloads).2
  if all_updated_ids = ∅ then none else trigger_predictor all_updated_ids

/-! ### sync.py: low-frequency enrichment (teams, venues, standings) -/

/-- One staged value of the enrichment-path teams upsert. -/
structure EnrichTeamVal where
  team_id : Nat
  name : Option String
  code : Option String
  country : Option String
  founded : Option Int
  national : Bool
  logo_url : Option String
  venue_id : Option Nat
deriving DecidableEq

def enrichTeamKey (v : EnrichTeamVal) : Nat := v.team_id

/-- Merge function of the enrichment-path teams upsert: name, code,
country, founded and logo_url are COALESCE(EXCLUDED.col, teams.col);
national is set from EXCLUDED; venue_id is
COALESCE(teams.venue_id, EXCLUDED.venue_id). -/
def applyEnrichTeam : Option SyncTeamRow → EnrichTeamVal → SyncTeamRow
  | none, v =>
    { name := v.name, code := v.code, country := v.country,
      founded := v.founded, national := some v.national,
      logo_url := v.logo_url, venue_id := v.venue_id }
  | some old, v =>
    { old with
      name := v.name.or old.name,
      code := v.code.or old.code,
      country := v.country.or old.country,
      founded := v.founded.or old.founded,
      national := some v.national,
      logo_url := v.logo_url.or old.logo_url,
      venue_id := old.venue_id.or v.venue_id }

/-- One staged value of the enrichment-path venues upsert. -/
structure EnrichVenueVal where
  venue_id : Nat
  name : Option String
  address : Option String
  city : Option String
  capacity : Option Int
  surface : Option String
  image_url : Option String
deriving DecidableEq

def enrichVenueKey (v : EnrichVenueVal) : Nat := v.venue_id

/-- Merge function of the enrichment-path venues upsert: name is
COALESCE(EXCLUDED.name, venues.name); address, city, capacity, surface and
image_url are set from EXCLUDED; country is untouched. -/
def applyEnrichVenue : Option VenueRow → EnrichVenueVal → VenueRow
  | none, v =>
    { name := v.name, address := v.address, city := v.city, country := none,
      capacity := v.capacity, surface := v.surface, image_url := v.image_url }
  | some old, v =>
    { old with
      name := v.name.or old.name,
      address := v.address, city := v.city, capacity := v.capacity,
      surface := v.surface, image_url := v.image_url }

def enrichTeamValOf (item : ASTeamItem) : EnrichTeamVal :=
  { team_id := item.team.id.getD 0,
    name := safe_str item.team.name,
    code := safe_str item.team.code,
    country := safe_str item.team.country,
    founded := safe_int item.team.founded,
    national := (item.team.national).getD false,
    logo_url := safe_str item.team.logo,
    venue_id := item.venue.id }

def enrichVenueValOf (item : ASTeamItem) : EnrichVenueVal :=
  { venue_id := item.venue.id.getD 0,
    name := safe_str item.venue.name,
    address := safe_str item.venue.address,
    city := safe_str item.venue.city,
    capacity := safe_int item.venue.capacity,
    surface := safe_str item.venue.surface,
    image_url := safe_str item.venue.image }

/-- The team_data_map de-duplication of fetch_and_upsert_teams: first
entry wins, keyed by a present (is-not-None) team id. -/
def enrichTeamEntriesOf (item : ASTeamItem) : List (Nat × EnrichTeamVal) :=
  match item.team.id with
  | some tid => [(tid, enrichTeamValOf item)]
  | none => []

def collectEnrichTeams (teams_data : List ASTeamItem) : List EnrichTeamVal :=
  (dictInsertManyIfAbsent [] (teams_data.flatMap enrichTeamEntriesOf)).map Prod.snd

/-- The venue_data_map de-duplication of fetch_and_upsert_teams. -/
def enrichVenueEntriesOf (item : ASTeamItem) : List (Nat × EnrichVenueVal) :=
  match item.venue.id with
  | some vid => [(vid, enrichVenueValOf item)]
  | none => []

def collectEnrichVenues (teams_data : List ASTeamItem) : List EnrichVenueVal :=
  (dictInsertManyIfAbsent [] (teams_data.flatMap enrichVenueEntriesOf)).map Prod.snd

/-- fetch_and_upsert_teams: a failed or empty /teams fetch contributes 0
and leaves the transaction untouched; otherwise the venues and teams of
the response are staged and the step contributes 1.  (A payload of none
also covers an exception inside the step: the worker then rolls back
whatever the step staged.) -/
def fetch_and_upsert_teams (db : SyncDb) (payload : Option (List ASTeamItem)) :
    Nat × SyncDb :=
  match payload with
  | none => (0, db)
  | some teams_data =>
    if teams_data.isEmpty then (0, db)
    else
      (1, { db with
            venues := upsertBatch enrichVenueKey applyEnrichVenue db.venues
              (collectEnrichVenues teams_data),
            teams := upsertBatch enrichTeamKey applyEnrichTeam db.teams
              (collectEnrichTeams teams_data) })

/-- One rank entry of an AS /standings response (the nested team and
all/goals sub-dicts are flattened to the fields the code reads). -/
structure ASRankData where
  team_id : Nat
  rank : Option Int
  points : Option Int
  goalsDiff : Option Int
  group : Option String
  form : Option String
  description : Option String
  played : Option Int
  win : Option Int
  draw : Option Int
  lose : Option Int
  goals_for : Option Int
  goals_against : Option Int
deriving DecidableEq

/-- One staged value of the standings upsert. -/
structure StandingSyncVal where
  league_id : Nat
  season_year : Nat
  team_id : Nat
  rank : Option Int
  points : Option Int
  goals_diff : Option Int
  group_name : String
  form : Option String
  description : Option String
  played : Option Int
  win : Option Int
  draw : Option Int
  lose : Option Int
  goals_for : Option Int
  goals_against : Option Int
deriving DecidableEq

def standingSyncKey (v : StandingSyncVal) : Nat × Nat × Nat :=
  (v.league_id, v.season_year, v.team_id)

/-- Merge function of the standings upsert: every staged column is set
from EXCLUDED and update_date is set to NOW(); a fresh insert leaves
update_date NULL (the column is not in the INSERT list). -/
def applySyncStanding (now : ℚ) :
    Option SyncStandingRow → StandingSyncVal → SyncStandingRow
  | none, v =>
    { rank := v.rank, points := v.points, goals_diff := v.goals_diff,
      group_name := v.group_name, form := v.form,
      description := v.description, played := v.played, win := v.win,
      draw := v.draw, lose := v.lose, goals_for := v.goals_for,
      goals_against := v.goals_against, update_date := none }
  | some _old, v =>
    { rank := v.rank, points := v.points, goals_diff := v.goals_diff,
      group_name := v.group_name, form := v.form,
      description := v.description, played := v.played, win := v.win,
      draw := v.draw, lose := v.lose, goals_for := v.goals_for,
      goals_against := v.goals_against, update_date := some now }

def standingSyncValOf (league_id season_year : Nat) (r : ASRankData) :
    StandingSyncVal :=
  { league_id := league_id, season_year := season_year, team_id := r.team_id,
    rank := r.rank, points := r.points, goals_diff := r.goalsDiff,
    group_name := r.group.getD "N/A", form := r.form,
    description := r.description, played := r.played, win := r.win,
    draw := r.draw, lose := r.lose, goals_for := r.goals_for,
    goals_against := r.goals_against }

/-- The standings_data_map de-duplication of fetch_and_upsert_standings:
first entry wins per (league_id, season_year, team_id). -/
def collectEnrichStandings (league_id season_year : Nat)
    (standings_lists : List (List ASRankData)) : List StandingSyncVal :=
  (dictInsertManyIfAbsent []
    ((standings_lists.flatMap id).map (fun r =>
      ((league_id, season_year, r.team_id),
       standingSyncValOf league_id season_year r)))).map Prod.snd

/-- fetch_and_upsert_standings: a failed or empty /standings fetch
contributes 0; otherwise the flattened rank entries of the first response
element are staged and the step contributes 1. -/
def fetch_and_upsert_standings (db : SyncDb) (league_id season_year : Nat)
    (now : ℚ) (payload : Option (List (List ASRankData))) : Nat × SyncDb :=
  match payload with
  | none => (0, db)
  | some standings_lists =>
      (1, { db with
            standings := upsertBatch standingSyncKey (applySyncStanding now)
              db.standings
              (collectEnrichStandings league_id season_year standings_lists) })

/-- UPDATE enrichment_status SET status = ENRICHED,
last_enriched_at = NOW() WHERE league_id matches (existing rows only). -/
def markEnriched (db : SyncDb) (league_id : Nat) (now : ℚ) : SyncDb :=
  { db with enrichment_status := fun k =>
      if k = league_id then
        (db.enrichment_status k).map (fun _row =>
          { status := "ENRICHED", last_enriched_at := now })
      else db.enrichment_status k }

/-- run_enrichment_worker: the teams step, then (only when it succeeded)
the standings step; only when both contributed (total_calls = 2) is the
league marked ENRICHED and the transaction committed, otherwise everything
staged is rolled back and the database is unchanged.  Returns the worker
result and the committed database. -/
def run_enrichment_worker (db : SyncDb) (league_id season_year : Nat)
    (now : ℚ) (teamsPayload : Option (List ASTeamItem))
    (standingsPayload : Option (List (List ASRankData))) : Bool × SyncDb :=
  let r1 := fetch_and_upsert_teams db teamsPayload
  if r1.1 = 1 then
    let r2 := fetch_and_upsert_standings r1.2 league_id season_year now
      standingsPayload
    if r2.1 = 1 then (true, markEnriched r2.2 league_id now)
    else (false, db)
  else (false, db)

/-! ### offline_csv_converter.py: safe_int and the winner computation -/

/-- offline_csv_converter.safe_int: None gives the default, a stripped
lower-cased empty or unknown string gives the default, otherwise int
conversion with the default on failure. -/
def csvSafeInt (value : Option String) (dflt : Option Int) : Option Int :=
  match value with
  | none => dflt
  | some s =>
      let str_value := s.trim.toLower
      if str_value = "" ∨ str_value = "unknown" then dflt
      else
        match str_value.toInt? with
        | some n => some n
        | none => dflt

/-- The winner computation of process_fd_api_csv: aggregate goals are
full time plus extra time (an absent extra-time value counts 0); an
untied aggregate decides; a tied aggregate falls back to the penalty
scores when both are present; a tie with absent or tied penalties yields
(False, False). -/
def csv_total (ft : Int) (et_val : Option Int) : Int :=
  ft + (match et_val with | some v => v | none => 0)

def csv_winner (ft_home ft_away : Int)
    (et_home_val et_away_val pen_home_val pen_away_val : Option Int) :
    Bool × Bool :=
  let total_home := csv_total ft_home et_home_val
  let total_away := csv_total ft_away et_away_val
  if total_home > total_away then (true, false)
  else if total_home < total_away then (false, true)
  else
    match pen_home_val, pen_away_val with
    | some ph, some pa =>
        if ph > pa then (true, false)
        else if ph < pa then (false, true)
        else (false, false)
    | _, _ => (false, false)

/-- The winner fields of the fixture record built by process_fd_api_csv
from one CSV row, after its values went through safe_int (full-time goals
with default 0, extra-time and penalty values with default None, as
modelled by csvSafeInt): the stored home_winner/away_winner columns are
the csv_winner booleans, wrapped — never NULL on this path. -/
def process_fd_api_csv_winner (ft_home ft_away : Int)
    (et_home_val et_away_val pen_home_val pen_away_val : Option Int) :
    Option Bool × Option Bool :=
  let w := csv_winner ft_home ft_away et_home_val et_away_val
    pen_home_val pen_away_val
  (some w.1, some w.2)

/-! ### Spec-side comparison definitions and concrete sample data -/

/-- Following the spec's words (Live/Incremental Poller contract): the
set of fixture IDs that were inserted or updated with a live-ish status
during this cycle, i.e. the ids of every fixture of every (non-empty)
fetched payload whose status_short is live-ish — each staged fixture row
is inserted or updated by the upsert. -/
def spec_live_fixture_ids (payloads : List (List SyncFixture)) : Finset Nat :=
  (((payloads.filter (fun p => !p.isEmpty)).flatMap id).filter
    (fun f => LIVE_STATUSES.contains f.fixture.status.short)).toFinset.image
    (fun f => f.fixture.id)

/-- An all-empty database. -/
def emptySyncDb : SyncDb :=
  { fixtures := fun _ => none, teams := fun _ => none, venues := fun _ => none,
    leagues := fun _ => none, seasons := fun _ => none,
    enrichment_status := fun _ => none, standings := fun _ => none }

/-- An all-empty standings state with the allocator at 1. -/
def emptyStandingsState : StandingsState :=
  { standings_lists := fun _ => none, next_list_id := 1,
    standing_rows := fun _ => none, teams := fun _ => none }

/-- A scheduled (NS) fixture payload with the given fixture id. -/
def mkNSFixture (i : Nat) : SyncFixture :=
  { fixture :=
      { id := i, referee := none, date := "2025-01-01T00:00:00+00:00",
        timestamp := 1735689600, venue := none,
        status := { long := "Not Started", short := "NS", elapsed := none } },
    league :=
      { id := 39, season := 2024, name := some "Premier League",
        type := some "League", logo := none, country := some "England" },
    teams := { home := { id := 10, name := some "Home", logo := none },
               away := { id := 20, name := some "Away", logo := none } },
    goals := { home := none, away := none },
    score := { halftime := { home := none, away := none },
               extratime := { home := none, away := none },
               penalty := { home := none, away := none } } }

/-- 101 scheduled fixtures (ids 1 to 101) arriving in one date payload:
a single 250-row chunk whose execute_values call spans two pages of the
default page_size 100. -/
def c8_payload : List SyncFixture :=
  (List.range 101).map (fun i => mkNSFixture (i + 1))

/-- A finished fixture drawn 1-1 at full time and decided 5-4 on
penalties. -/
def penaltyShootoutFixture : SyncFixture :=
  { fixture :=
      { id := 77, referee := none, date := "2025-01-01T00:00:00+00:00",
        timestamp := 1735689600, venue := none,
        status := { long := "Match Finished", short := "PEN", elapsed := some 120 } },
    league :=
      { id := 39, season := 2024, name := some "Premier League",
        type := some "League", logo := none, country := some "England" },
    teams := { home := { id := 10, name := some "Home", logo := none },
               away := { id := 20, name := some "Away", logo := none } },
    goals := { home := some 1, away := some 1 },
    score := { halftime := { home := some 0, away := some 1 },
               extratime := { home := some 0, away := some 0 },
               penalty := { home := some 5, away := some 4 } } }

/-- A stored sync-schema team row whose venue_id is 5. -/
def c6_stored_team_row : SyncTeamRow :=
  { name := some "Arsenal", code := none, country := some "England",
    founded := some 1886, national := some false, logo_url := none,
    venue_id := some 5 }

/-- An incoming team value carrying venue_id 7 for the same team. -/
def c6_incoming_team_val : SyncTeamVal :=
  { team_id := 42, name := some "Arsenal FC", code := none,
    country := some "England", founded := none, national := none,
    logo_url := some "crest.png", venue_id := some 7 }

/-- A minimal AS /teams item for team 500 at venue 900. -/
def c10_team_item : ASTeamItem :=
  { team :=
      { id := some 500, name := some "FC Test", code := none,
        country := some "England", founded := none, national := some false,
        logo := none },
    venue :=
      { id := some 900, name := some "Test Park", address := none,
        city := some "Test City", capacity := some 10000, surface := none,
        image := none } }

/-- A single standings rank entry for team 500. -/
def c10_rank : ASRankData :=
  { team_id := 500, rank := some 1, points := some 30, goalsDiff := some 12,
    group := none, form := some "WWWWW", description := none,
    played := some 10, win := some 9, draw := some 3, lose := some 0,
    goals_for := some 20, goals_against := some 8 }

/-- A sync database holding a PENDING enrichment row for league 39. -/
def c10_db : SyncDb :=
  { emptySyncDb with enrichment_status := fun k =>
      if k = 39 then some { status := "PENDING", last_enriched_at := 0 }
      else none }

/-- An FD backfill task for competition 2021 of season 2015. -/
def c4_task : BackfillTask :=
  { competition_id := 2021, season_year := 2015, comp_name := "Serie A",
    is_current := false, task_type := "FD" }

/-- A ledger holding that FD task as COMPLETED. -/
def c4_tbl : ProgTable :=
  [((2021, 2015), { status := "COMPLETED", task_type := "FD" })]

/-- A sample AS /teams response item (native team id 33). -/
def c3_team_item : ASTeamItem :=
  { team :=
      { id := some 33, name := some "Manchester United", code := some "MUN",
        country := some "England", founded := some 1878, national := some false,
        logo := none },
    venue :=
      { id := some 556, name := some "Old Trafford", address := none,
        city := some "Manchester", capacity := some 76212, surface := none,
        image := none } }

/-- A sample AS /fixtures response item (native fixture id 868549). -/
def c3_match_item : ASMatchItem :=
  { fixture :=
      { id := some 868549, date := some "2023-08-11T19:00:00+00:00",
        timestamp := some 1691780400, status := { short := some "FT" } },
    league := { round := some "Regular Season - 1", group := none },
    teams :=
      { home := { id := some 44, name := some "Burnley", winner := some false },
        away := { id := some 50, name := some "Manchester City", winner := some true } },
    goals := { home := some 0, away := some 3 },
    score := { halftime := { home := some 0, away := some 2 } } }

/-! ## Framework lemmas -/

theorem upsertBatch_nil [DecidableEq κ] (key : σ → κ) (f : Option ρ → σ → ρ)
    (t : Tbl κ ρ) : upsertBatch key f t [] = t := rfl

theorem upsertBatch_cons [DecidableEq κ] (key : σ → κ) (f : Option ρ → σ → ρ)
    (t : Tbl κ ρ) (v : σ) (vs : List σ) :
    upsertBatch key f t (v :: vs) = upsertBatch key f (upsertRow key f t v) vs := rfl

/-- A key touched by none of the incoming values keeps its row. -/
theorem upsertBatch_apply_of_notMem [DecidableEq κ] (key : σ → κ)
    (f : Option ρ → σ → ρ) (t : Tbl κ ρ) (vs : List σ) (k : κ)
    (h : ∀ v ∈ vs, key v ≠ k) :
    upsertBatch key f t vs k = t k := by
  induction vs generalizing t with
  | nil => rfl
  | cons v rest ih =>
      rw [upsertBatch_cons, ih _ (fun u hu => h u (List.mem_cons_of_mem _ hu))]
      simp only [upsertRow]
      rw [if_neg (fun hk => h v (List.mem_cons_self _ _) hk.symm)]

/-- With duplicate-free keys (as the Postgres statement requires: a
multi-row ON CONFLICT DO UPDATE statement errors when two incoming values
share a key), the row at a key after the batch is determined by the unique
incoming value at that key, if any. -/
theorem upsertBatch_apply_of_nodup [DecidableEq κ] (key : σ → κ)
    (f : Option ρ → σ → ρ) (t : Tbl κ ρ) (vs : List σ) (k : κ)
    (hnd : (vs.map key).Nodup) :
    upsertBatch key f t vs k =
      match vs.find? (fun v => decide (key v = k)) with
      | some v => some (f (t k) v)
      | none => t k := by
  induction vs generalizing t with
  | nil => rfl
  | cons v rest ih =>
      rw [List.map_cons, List.nodup_cons] at hnd
      rw [upsertBatch_cons]
      by_cases hk : key v = k
      · have hfind : (v :: rest).find? (fun u => decide (key u = k)) = some v := by
          simp [List.find?_cons, hk]
        rw [hfind]
        have hrest : ∀ u ∈ rest, key u ≠ k := by
          intro u hu he
          exact hnd.1 (by rw [hk, ← he]; exact List.mem_map_of_mem key hu)
        rw [upsertBatch_apply_of_notMem key f _ rest k hrest]
        simp only [upsertRow]
        rw [if_pos hk.symm]
      · have hfind : (v :: rest).find? (fun u => decide (key u = k)) =
            rest.find? (fun u => decide (key u = k)) := by
          simp [List.find?_cons, hk]
        rw [hfind, ih _ hnd.2]
        have : upsertRow key f t v k = t k := by
          simp only [upsertRow]
          rw [if_neg (fun he => hk he.symm)]
        rw [this]

/-- Idempotence of a batch upsert whose merge function is stable, i.e.
re-merging an incoming value into the row it just produced changes
nothing, provided the incoming keys are duplicate free. -/
theorem upsertBatch_idem_of_stable [DecidableEq κ] (key : σ → κ)
    (f : Option ρ → σ → ρ) (t : Tbl κ ρ) (vs : List σ)
    (hst : ∀ o v, f (some (f o v)) v = f o v)
    (hnd : (vs.map key).Nodup) :
    upsertBatch key f (upsertBatch key f t vs) vs = upsertBatch key f t vs := by
  funext k
  have h1 := upsertBatch_apply_of_nodup key f t vs k hnd
  have h2 := upsertBatch_apply_of_nodup key f (upsertBatch key f t vs) vs k hnd
  cases hfind : vs.find? (fun v => decide (key v = k)) with
  | none =>
      rw [hfind] at h2
      exact h2
  | some v =>
      rw [hfind] at h1 h2
      rw [h2, h1]
      exact congrArg some (hst (t k) v)

/-- The same batch applied from two different starting tables agrees at
every key some incoming value touches, provided the merge function
ignores the existing row (full-overwrite merges). -/
theorem upsertBatch_apply_congr_of_ignores [DecidableEq κ] (key : σ → κ)
    (f : Option ρ → σ → ρ) (vs : List σ) (k : κ)
    (hig : ∀ o o' v, f o v = f o' v)
    (hmem : k ∈ vs.map key) :
    ∀ t t' : Tbl κ ρ, upsertBatch key f t vs k = upsertBatch key f t' vs k := by
  induction vs with
  | nil => cases hmem
  | cons v rest ih =>
      intro t t'
      rw [upsertBatch_cons, upsertBatch_cons]
      by_cases hr : k ∈ rest.map key
      · exact ih hr _ _
      · have hk : key v = k := by
          rcases List.mem_map.mp hmem with ⟨u, hu, he⟩
          rcases List.mem_cons.mp hu with h1 | h2
          · exact h1 ▸ he
          · exact absurd (he ▸ List.mem_map_of_mem key h2) hr
        have hrest : ∀ u ∈ rest, key u ≠ k := by
          intro u hu he
          exact hr (he ▸ List.mem_map_of_mem key hu)
        rw [upsertBatch_apply_of_notMem key f _ rest k hrest,
            upsertBatch_apply_of_notMem key f _ rest k hrest]
        simp only [upsertRow]
        rw [if_pos hk.symm, if_pos hk.symm]
        exact congrArg some (hig _ _ v)

/-- Idempotence of a batch upsert whose merge function ignores the
existing row (DO UPDATE SET setting every column from EXCLUDED), with no
assumption on the incoming keys. -/
theorem upsertBatch_idem_of_ignores [DecidableEq κ] (key : σ → κ)
    (f : Option ρ → σ → ρ) (t : Tbl κ ρ) (vs : List σ)
    (hig : ∀ o o' v, f o v = f o' v) :
    upsertBatch key f (upsertBatch key f t vs) vs = upsertBatch key f t vs := by
  funext k
  by_cases hmem : k ∈ vs.map key
  · exact upsertBatch_apply_congr_of_ignores key f vs k hig hmem _ t
  · have hnot : ∀ v ∈ vs, key v ≠ k := by
      intro v hv he
      exact hmem (he ▸ List.mem_map_of_mem key hv)
    rw [upsertBatch_apply_of_notMem key f _ vs k hnot,
        upsertBatch_apply_of_notMem key f t vs k hnot]

theorem dictInsert_keys_of_mem [DecidableEq κ] (d : List (κ × α)) (k : κ)
    (v : α) (h : d.any (fun p => decide (p.1 = k))) :
    (dictInsert d k v).map Prod.fst = d.map Prod.fst := by
  simp only [dictInsert, if_pos h, List.map_map]
  apply List.map_congr_left
  intro p _
  by_cases hp : p.1 = k
  · simp [hp]
  · simp [hp]

theorem dictInsert_keys_of_notMem [DecidableEq κ] (d : List (κ × α)) (k : κ)
    (v : α) (h : ¬ d.any (fun p => decide (p.1 = k))) :
    (dictInsert d k v).map Prod.fst = d.map Prod.fst ++ [k] := by
  simp only [dictInsert, if_neg h, List.map_append, List.map_cons, List.map_nil]

/-- Key/value coherence invariant of dicts built with dictOfList: every
stored pair's key is the key of its value. -/
theorem dictOfList_coherent [DecidableEq κ] (key : σ → κ) (vs : List σ) :
    ∀ p ∈ dictOfList key vs, p.1 = key p.2 := by
  have main : ∀ (vs : List σ) (d : List (κ × σ)),
      (∀ p ∈ d, p.1 = key p.2) →
      ∀ p ∈ vs.foldl (fun d v => dictInsert d (key v) v) d, p.1 = key p.2 := by
    intro vs
    induction vs with
    | nil => intro d hd; exact hd
    | cons v rest ih =>
        intro d hd
        apply ih
        intro p hp
        simp only [dictInsert] at hp
        by_cases hany : d.any (fun q => decide (q.1 = key v))
        · rw [if_pos hany] at hp
          rcases List.mem_map.mp hp with ⟨q, hq, he⟩
          by_cases hqk : q.1 = key v
          · rw [if_pos hqk] at he
            rw [← he]
          · rw [if_neg hqk] at he
            exact he ▸ hd q hq
        · rw [if_neg hany] at hp
          rcases List.mem_append.mp hp with h1 | h2
          · exact hd p h1
          · rcases List.mem_singleton.mp h2 with rfl
            rfl
  exact main vs [] (by intro p hp; cases hp)

/-- The keys of a dict built with dictOfList are duplicate free. -/
theorem dictOfList_keys_nodup [DecidableEq κ] (key : σ → κ) (vs : List σ) :
    ((dictOfList key vs).map Prod.fst).Nodup := by
  have main : ∀ (vs : List σ) (d : List (κ × σ)),
      (d.map Prod.fst).Nodup →
      ((vs.foldl (fun d v => dictInsert d (key v) v) d).map Prod.fst).Nodup := by
    intro vs
    induction vs with
    | nil => intro d hd; exact hd
    | cons v rest ih =>
        intro d hd
        apply ih
        by_cases hany : d.any (fun q => decide (q.1 = key v))
        · rw [dictInsert_keys_of_mem _ _ _ hany]; exact hd
        · rw [dictInsert_keys_of_notMem _ _ _ hany]
          rw [List.nodup_append]
          refine ⟨hd, List.nodup_singleton _, ?_⟩
          intro a ha hb
          rcases List.mem_singleton.mp hb with rfl
          rcases List.mem_map.mp ha with ⟨q, hq, hqe⟩
          exact hany (List.any_eq_true.mpr ⟨q, hq, by simp [hqe]⟩)
  exact main vs [] (by simp [List.Nodup])

/-- The values of a dict built with dictOfList have duplicate-free keys. -/
theorem dictOfList_values_keys_nodup [DecidableEq κ] (key : σ → κ)
    (vs : List σ) :
    (((dictOfList key vs).map Prod.snd).map key).Nodup := by
  have hco := dictOfList_coherent key vs
  have : ((dictOfList key vs).map Prod.snd).map key =
      (dictOfList key vs).map Prod.fst := by
    rw [List.map_map]
    apply List.map_congr_left
    intro p hp
    exact (hco p hp).symm
  rw [this]
  exact dictOfList_keys_nodup key vs

/-! ## Option.or (COALESCE) lemmas -/

theorem optOr_self (a : Option α) : a.or a = a := by
  cases a <;> rfl

theorem optOr_left_absorb (a b : Option α) : a.or (a.or b) = a.or b := by
  cases a <;> rfl

theorem optOr_right_absorb (a b : Option α) : (a.or b).or b = a.or b := by
  cases a <;> cases b <;> rfl

/-! ## Further batch-upsert lemmas -/

theorem upsertBatch_append [DecidableEq κ] (key : σ → κ) (f : Option ρ → σ → ρ)
    (t : Tbl κ ρ) (l1 l2 : List σ) :
    upsertBatch key f t (l1 ++ l2) = upsertBatch key f (upsertBatch key f t l1) l2 := by
  simp only [upsertBatch, List.foldl_append]

/-- A key touched by some incoming value holds a row after the batch. -/
theorem upsertBatch_isSome_of_mem [DecidableEq κ] (key : σ → κ)
    (f : Option ρ → σ → ρ) (t : Tbl κ ρ) (vs : List σ) (k : κ)
    (hmem : k ∈ vs.map key) :
    (upsertBatch key f t vs k).isSome := by
  induction vs generalizing t with
  | nil => cases hmem
  | cons v rest ih =>
      rw [upsertBatch_cons]
      by_cases hr : k ∈ rest.map key
      · exact ih _ hr
      · have hk : key v = k := by
          rcases List.mem_map.mp hmem with ⟨u, hu, he⟩
          rcases List.mem_cons.mp hu with h1 | h2
          · exact h1 ▸ he
          · exact absurd (he ▸ List.mem_map_of_mem key h2) hr
        have hrest : ∀ u ∈ rest, key u ≠ k := by
          intro u hu he
          exact hr (he ▸ List.mem_map_of_mem key hu)
        rw [upsertBatch_apply_of_notMem key f _ rest k hrest]
        simp only [upsertRow]
        rw [if_pos hk.symm]
        rfl

/-- A batch whose merge function keeps conflicting rows unchanged
(ON CONFLICT DO NOTHING) is the identity on a table already holding a row
at every incoming key. -/
theorem upsertBatch_eq_of_keep [DecidableEq κ] (key : σ → κ)
    (f : Option ρ → σ → ρ) (t : Tbl κ ρ) (vs : List σ)
    (hkeep : ∀ o v, f (some o) v = o)
    (hpres : ∀ v ∈ vs, (t (key v)).isSome) :
    upsertBatch key f t vs = t := by
  induction vs with
  | nil => rfl
  | cons v rest ih =>
      rw [upsertBatch_cons]
      have hrow : upsertRow key f t v = t := by
        funext k
        simp only [upsertRow]
        by_cases hk : k = key v
        · subst hk
          rcases Option.isSome_iff_exists.mp (hpres v (List.mem_cons_self _ _)) with ⟨o, ho⟩
          rw [if_pos rfl, ho, hkeep o v]
        · rw [if_neg hk]
      rw [hrow]
      exact ih (fun u hu => hpres u (List.mem_cons_of_mem _ hu))

/-! ## Guarded dict-insertion lemmas -/

theorem dictInsertIfAbsent_coherent [DecidableEq κ] (key : α → κ)
    (d : List (κ × α)) (k : κ) (v : α)
    (hd : ∀ p ∈ d, p.1 = key p.2) (hkv : k = key v) :
    ∀ p ∈ dictInsertIfAbsent d k v, p.1 = key p.2 := by
  intro p hp
  simp only [dictInsertIfAbsent] at hp
  by_cases hany : d.any (fun p => decide (p.1 = k))
  · rw [if_pos hany] at hp
    exact hd p hp
  · rw [if_neg hany] at hp
    rcases List.mem_append.mp hp with h1 | h2
    · exact hd p h1
    · rcases List.mem_singleton.mp h2 with rfl
      exact hkv

theorem dictInsertIfAbsent_keys_nodup [DecidableEq κ]
    (d : List (κ × α)) (k : κ) (v : α)
    (hd : (d.map Prod.fst).Nodup) :
    ((dictInsertIfAbsent d k v).map Prod.fst).Nodup := by
  simp only [dictInsertIfAbsent]
  by_cases hany : d.any (fun p => decide (p.1 = k))
  · rw [if_pos hany]; exact hd
  · rw [if_neg hany]
    rw [List.map_append, List.map_cons, List.map_nil, List.nodup_append]
    refine ⟨hd, List.nodup_singleton _, ?_⟩
    intro a ha hb
    rcases List.mem_singleton.mp hb with rfl
    rcases List.mem_map.mp ha with ⟨q, hq, hqe⟩
    exact hany (List.any_eq_true.mpr ⟨q, hq, by simp [hqe]⟩)

theorem dictInsertManyIfAbsent_coherent [DecidableEq κ] (key : α → κ)
    (kvs : List (κ × α)) (hkvs : ∀ p ∈ kvs, p.1 = key p.2) :
    ∀ p ∈ dictInsertManyIfAbsent [] kvs, p.1 = key p.2 := by
  have main : ∀ (kvs d : List (κ × α)), (∀ p ∈ d, p.1 = key p.2) →
      (∀ p ∈ kvs, p.1 = key p.2) →
      ∀ p ∈ dictInsertManyIfAbsent d kvs, p.1 = key p.2 := by
    intro kvs
    induction kvs with
    | nil => intro d hd _; exact hd
    | cons q rest ih =>
        intro d hd hkv
        exact ih _ (dictInsertIfAbsent_coherent key d q.1 q.2 hd
            (hkv q (List.mem_cons_self _ _)))
          (fun p hp => hkv p (List.mem_cons_of_mem _ hp))
  exact main kvs [] (by intro p hp; cases hp) hkvs

theorem dictInsertManyIfAbsent_keys_nodup [DecidableEq κ]
    (kvs : List (κ × α)) :
    ((dictInsertManyIfAbsent ([] : List (κ × α)) kvs).map Prod.fst).Nodup := by
  have main : ∀ (kvs d : List (κ × α)), (d.map Prod.fst).Nodup →
      ((dictInsertManyIfAbsent d kvs).map Prod.fst).Nodup := by
    intro kvs
    induction kvs with
    | nil => intro d hd; exact hd
    | cons q rest ih =>
        intro d hd
        exact ih _ (dictInsertIfAbsent_keys_nodup d q.1 q.2 hd)
  exact main kvs [] (by simp)

/-- The values of a guarded-insert dict have duplicate-free keys when
every inserted pair is keyed coherently. -/
theorem dictInsertManyIfAbsent_values_keys_nodup [DecidableEq κ] (key : α → κ)
    (kvs : List (κ × α)) (hkvs : ∀ p ∈ kvs, p.1 = key p.2) :
    (((dictInsertManyIfAbsent [] kvs).map Prod.snd).map key).Nodup := by
  have hco := dictInsertManyIfAbsent_coherent key kvs hkvs
  have he : ((dictInsertManyIfAbsent ([] : List (κ × α)) kvs).map Prod.snd).map key =
      (dictInsertManyIfAbsent ([] : List (κ × α)) kvs).map Prod.fst := by
    rw [List.map_map]
    apply List.map_congr_left
    intro p hp
    exact (hco p hp).symm
  rw [he]
  exact dictInsertManyIfAbsent_keys_nodup kvs

/-! ## Merge-function properties -/

theorem applyFixture_stable (o : Option FixtureRowDB) (r : FixRow) :
    applyFixture (some (applyFixture o r)) r = applyFixture o r := by
  cases o with
  | none => simp [applyFixture, fixtureInsertRow, optOr_self]
  | some old => simp [applyFixture, optOr_right_absorb, optOr_left_absorb]

theorem applySyncTeamFix_stable (o : Option SyncTeamRow) (v : SyncTeamVal) :
    applySyncTeamFix (some (applySyncTeamFix o v)) v = applySyncTeamFix o v := by
  cases o with
  | none => simp [applySyncTeamFix, syncTeamInsertRow, optOr_self]
  | some old => simp [applySyncTeamFix, optOr_right_absorb, optOr_left_absorb]

theorem applySyncVenueFix_stable (o : Option VenueRow) (v : SyncVenueVal) :
    applySyncVenueFix (some (applySyncVenueFix o v)) v = applySyncVenueFix o v := by
  cases o <;> rfl

/-! ## Idempotence of the populator upserts -/

theorem upsert_areas_idem (t : Tbl Nat AreaRow) (xs : List FDArea) :
    upsert_areas (upsert_areas t xs) xs = upsert_areas t xs := by
  simp only [upsert_areas]
  exact upsertBatch_idem_of_ignores _ _ _ _ (fun _ _ _ => rfl)

theorem upsert_teams_idem (t : Tbl Nat TeamRow) (xs : List FDTeam) :
    upsert_teams (upsert_teams t xs) xs = upsert_teams t xs := by
  simp only [upsert_teams]
  exact upsertBatch_idem_of_ignores _ _ _ _ (fun _ _ _ => rfl)

theorem upsert_competitions_idem (aT : Tbl Nat AreaRow)
    (cT : Tbl Nat CompetitionRow) (cs : List FDCompetition) :
    upsert_competitions (upsert_competitions aT cT cs).1
      (upsert_competitions aT cT cs).2 cs = upsert_competitions aT cT cs := by
  simp only [upsert_competitions]
  cases h : (cs.filter (fun c => natTruthy c.id)).isEmpty
  · simp only [h, Bool.false_eq_true, if_false, Prod.mk.injEq]
    exact ⟨upsert_areas_idem _ _,
           upsertBatch_idem_of_ignores _ _ _ _ (fun _ _ _ => rfl)⟩
  · simp [h]

theorem upsert_matches_basic_idem (teamsT : Tbl Nat TeamRow)
    (matchesT : Tbl Nat MatchVal) (cid yr : Nat) (ms : List FDMatch) :
    upsert_matches_basic (upsert_matches_basic teamsT matchesT cid yr ms).1
      (upsert_matches_basic teamsT matchesT cid yr ms).2 cid yr ms =
      upsert_matches_basic teamsT matchesT cid yr ms := by
  simp only [upsert_matches_basic]
  cases h : ((ms.filter (fun m => natTruthy m.id)).map (matchValue cid yr)).isEmpty
  · simp only [h, Bool.false_eq_true, if_false, Prod.mk.injEq]
    exact ⟨upsert_teams_idem _ _,
           upsertBatch_idem_of_ignores _ _ _ _ (fun _ _ _ => rfl)⟩
  · simp [h]

/-! ## Idempotence of upsert_standings -/

theorem getOrCreateStandingsList_lookup_self (L : Tbl SLKey Nat) (n : Nat)
    (k : SLKey) :
    (getOrCreateStandingsList L n k).2.1 k =
      some (getOrCreateStandingsList L n k).1 := by
  simp only [getOrCreateStandingsList]
  cases hL : L k with
  | some lid => simpa using hL
  | none => simp

theorem getOrCreateStandingsList_mono (L : Tbl SLKey Nat) (n : Nat)
    (k k0 : SLKey) (i : Nat) (h : L k0 = some i) :
    (getOrCreateStandingsList L n k).2.1 k0 = some i := by
  simp only [getOrCreateStandingsList]
  cases hL : L k with
  | some lid => simpa using h
  | none =>
      by_cases he : k0 = k
      · rw [he] at h; rw [hL] at h; cases h
      · simpa [he] using h

theorem listsPass_mono (ks : List SLKey) :
    ∀ (p : Tbl SLKey Nat × Nat) (k0 : SLKey) (i : Nat),
    p.1 k0 = some i → (listsPass p ks).1 k0 = some i := by
  induction ks with
  | nil => intro p k0 i h; exact h
  | cons k rest ih =>
      intro p k0 i h
      exact ih _ k0 i (getOrCreateStandingsList_mono p.1 p.2 k k0 i h)

theorem listsPass_covers (ks : List SLKey) :
    ∀ (p : Tbl SLKey Nat × Nat) (k0 : SLKey), k0 ∈ ks →
    ((listsPass p ks).1 k0).isSome := by
  induction ks with
  | nil => intro p k0 h; cases h
  | cons k rest ih =>
      intro p k0 hmem
      rcases List.mem_cons.mp hmem with rfl | h2
      · have hself := getOrCreateStandingsList_lookup_self p.1 p.2 k0
        have := listsPass_mono rest
            ((getOrCreateStandingsList p.1 p.2 k0).2.1,
             (getOrCreateStandingsList p.1 p.2 k0).2.2) k0 _ hself
        simpa [listsPass] using Option.isSome_iff_exists.mpr ⟨_, this⟩
      · exact ih _ k0 h2

theorem listsPass_stable (ks : List SLKey) :
    ∀ (p : Tbl SLKey Nat × Nat), (∀ k ∈ ks, (p.1 k).isSome) →
    listsPass p ks = p := by
  induction ks with
  | nil => intro p _; rfl
  | cons k rest ih =>
      intro p hpres
      rcases Option.isSome_iff_exists.mp (hpres k (List.mem_cons_self _ _)) with ⟨i, hi⟩
      have hstep : getOrCreateStandingsList p.1 p.2 k = (i, p.1, p.2) := by
        simp [getOrCreateStandingsList, hi]
      show listsPass ((getOrCreateStandingsList p.1 p.2 k).2.1,
        (getOrCreateStandingsList p.1 p.2 k).2.2) rest = p
      rw [hstep]
      exact ih p (fun k0 h0 => hpres k0 (List.mem_cons_of_mem _ h0))

theorem upsert_standings_factor (cid yr : Nat) (data : List FDStanding) :
    ∀ s : StandingsState,
    upsert_standings s cid yr data =
      { standings_lists := (listsPass (s.standings_lists, s.next_list_id)
          (data.map (standingKey cid yr))).1,
        next_list_id := (listsPass (s.standings_lists, s.next_list_id)
          (data.map (standingKey cid yr))).2,
        standing_rows := upsertBatch sRowKey applySRow s.standing_rows
          (standingsRowBatches (listsPass (s.standings_lists, s.next_list_id)
            (data.map (standingKey cid yr))).1 cid yr data),
        teams := upsertBatch teamKey applyTeamFD s.teams
          (standingsTeamBatches data) } := by
  induction data with
  | nil => intro s; rfl
  | cons st rest ih =>
      intro s
      show upsert_standings (upsertStandingStep cid yr s st) cid yr rest = _
      rw [ih]
      have hLP : listsPass (s.standings_lists, s.next_list_id)
          ((st :: rest).map (standingKey cid yr)) =
          listsPass ((upsertStandingStep cid yr s st).standings_lists,
            (upsertStandingStep cid yr s st).next_list_id)
            (rest.map (standingKey cid yr)) := rfl
      have hlid : (listsPass ((upsertStandingStep cid yr s st).standings_lists,
            (upsertStandingStep cid yr s st).next_list_id)
            (rest.map (standingKey cid yr))).1 (standingKey cid yr st) =
          some (getOrCreateStandingsList s.standings_lists s.next_list_id
            (standingKey cid yr st)).1 := by
        apply listsPass_mono
        exact getOrCreateStandingsList_lookup_self _ _ _
      simp only [hLP, StandingsState.mk.injEq]
      refine ⟨trivial, trivial, ?_, ?_⟩
      · rw [show standingsRowBatches (listsPass
            ((upsertStandingStep cid yr s st).standings_lists,
             (upsertStandingStep cid yr s st).next_list_id)
            (rest.map (standingKey cid yr))).1 cid yr (st :: rest) =
          sRowValues (((listsPass ((upsertStandingStep cid yr s st).standings_lists,
              (upsertStandingStep cid yr s st).next_list_id)
              (rest.map (standingKey cid yr))).1
            (standingKey cid yr st)).getD 0) st.table ++
          standingsRowBatches (listsPass
            ((upsertStandingStep cid yr s st).standings_lists,
             (upsertStandingStep cid yr s st).next_list_id)
            (rest.map (standingKey cid yr))).1 cid yr rest
          from by simp [standingsRowBatches]]
        rw [upsertBatch_append, hlid]
        rfl
      · rw [show standingsTeamBatches (st :: rest) =
            teamUpsertValues (st.table.filterMap (·.team)) ++ standingsTeamBatches rest
          from by simp [standingsTeamBatches]]
        rw [upsertBatch_append]
        rfl

theorem upsert_standings_idem (s : StandingsState) (cid yr : Nat)
    (data : List FDStanding) :
    upsert_standings (upsert_standings s cid yr data) cid yr data =
      upsert_standings s cid yr data := by
  have h1 := upsert_standings_factor cid yr data s
  have h2 := upsert_standings_factor cid yr data (upsert_standings s cid yr data)
  have hfields : (upsert_standings s cid yr data).standings_lists =
      (listsPass (s.standings_lists, s.next_list_id)
        (data.map (standingKey cid yr))).1 ∧
      (upsert_standings s cid yr data).next_list_id =
      (listsPass (s.standings_lists, s.next_list_id)
        (data.map (standingKey cid yr))).2 := by
    rw [h1]; exact ⟨rfl, rfl⟩
  have hstable : listsPass ((upsert_standings s cid yr data).standings_lists,
      (upsert_standings s cid yr data).next_list_id)
      (data.map (standingKey cid yr)) =
      ((upsert_standings s cid yr data).standings_lists,
       (upsert_standings s cid yr data).next_list_id) := by
    apply listsPass_stable
    intro k hk
    rw [hfields.1]
    exact listsPass_covers _ _ k hk
  rw [h2, hstable]
  have hrows : (upsert_standings s cid yr data).standing_rows =
      upsertBatch sRowKey applySRow s.standing_rows
        (standingsRowBatches (upsert_standings s cid yr data).standings_lists
          cid yr data) := by
    conv_lhs => rw [h1]
    rw [hfields.1]
  have hteams : (upsert_standings s cid yr data).teams =
      upsertBatch teamKey applyTeamFD s.teams (standingsTeamBatches data) := by
    conv_lhs => rw [h1]
  conv_lhs =>
    rw [hrows, hteams]
    rw [show upsertBatch sRowKey applySRow
        (upsertBatch sRowKey applySRow s.standing_rows
          (standingsRowBatches (upsert_standings s cid yr data).standings_lists
            cid yr data))
        (standingsRowBatches (upsert_standings s cid yr data).standings_lists
          cid yr data) =
      upsertBatch sRowKey applySRow s.standing_rows
        (standingsRowBatches (upsert_standings s cid yr data).standings_lists
          cid yr data)
      from upsertBatch_idem_of_ignores _ _ _ _ (fun _ _ _ => rfl)]
    rw [show upsertBatch teamKey applyTeamFD
        (upsertBatch teamKey applyTeamFD s.teams (standingsTeamBatches data))
        (standingsTeamBatches data) =
      upsertBatch teamKey applyTeamFD s.teams (standingsTeamBatches data)
      from upsertBatch_idem_of_ignores _ _ _ _ (fun _ _ _ => rfl)]
  rw [← hrows, ← hteams]

/-! ## Idempotence of update_fixtures_db -/

theorem fixture_tuples_keys (fd : List SyncFixture) :
    (fd.map (fun f => (transform_fixture_data f).2)).map fixKey =
      fd.map (fun f => f.fixture.id) := by
  rw [List.map_map]
  rfl

theorem collectTeams_keys_nodup (fd : List SyncFixture) :
    ((collectTeams fd).map syncTeamKey).Nodup := by
  apply dictInsertManyIfAbsent_values_keys_nodup
  intro p hp
  rcases List.mem_flatMap.mp hp with ⟨f, _hf, hpe⟩
  simp only [teamEntriesOf] at hpe
  rcases List.mem_append.mp hpe with h1 | h2
  · by_cases hc : f.teams.home.id ≠ 0
    · rw [if_pos hc] at h1
      rcases List.mem_singleton.mp h1 with rfl
      rfl
    · rw [if_neg hc] at h1; cases h1
  · by_cases hc : f.teams.away.id ≠ 0
    · rw [if_pos hc] at h2
      rcases List.mem_singleton.mp h2 with rfl
      rfl
    · rw [if_neg hc] at h2; cases h2

theorem collectVenues_keys_nodup (fd : List SyncFixture) :
    ((collectVenues fd).map syncVenueKey).Nodup := by
  apply dictInsertManyIfAbsent_values_keys_nodup
  intro p hp
  rcases List.mem_flatMap.mp hp with ⟨f, _hf, hpe⟩
  cases hv : (transform_fixture_data f).2.venue_id with
  | none => simp [venueEntriesOf, hv] at hpe
  | some vid =>
      by_cases hc : vid = 0
      · simp [venueEntriesOf, hv, hc] at hpe
      · simp only [venueEntriesOf, hv, hc, ne_eq, not_false_eq_true, if_true,
          List.mem_singleton] at hpe
        rcases hpe with rfl
        simp [syncVenueKey, syncVenueValOf, hv]

theorem update_fixtures_db_idem (prio : List Nat) (ts1 ts2 : ℚ) (db : SyncDb)
    (fd : List SyncFixture)
    (hnd : (fd.map (fun f => f.fixture.id)).Nodup) :
    update_fixtures_db prio ts2 (update_fixtures_db prio ts1 db fd).1 fd =
      update_fixtures_db prio ts1 db fd := by
  cases he : fd.isEmpty with
  | true => simp [update_fixtures_db, he]
  | false =>
      simp only [update_fixtures_db, he, Bool.false_eq_true, if_false]
      simp only [Prod.mk.injEq, SyncDb.mk.injEq]
      refine ⟨⟨?_, ?_, ?_, ?_, ?_, ?_, trivial⟩, trivial⟩
      · -- fixtures: COALESCE-stable merge, duplicate-free incoming keys
        apply upsertBatch_idem_of_stable _ _ _ _ applyFixture_stable
        rw [fixture_tuples_keys]
        exact hnd
      · -- teams: COALESCE-stable merge, dict-deduplicated keys
        exact upsertBatch_idem_of_stable _ _ _ _ applySyncTeamFix_stable
          (collectTeams_keys_nodup fd)
      · -- venues: overwrite merge, dict-deduplicated keys
        exact upsertBatch_idem_of_stable _ _ _ _ applySyncVenueFix_stable
          (collectVenues_keys_nodup fd)
      · -- leagues: full-overwrite merge
        exact upsertBatch_idem_of_ignores _ _ _ _ (fun _ _ _ => rfl)
      · -- seasons: DO NOTHING on keys all present after the first pass
        apply upsertBatch_eq_of_keep _ _ _ _ (fun _ _ => rfl)
        intro v hv
        apply upsertBatch_isSome_of_mem
        simpa using hv
      · -- enrichment_status: DO NOTHING on keys all present after the
        -- first pass (the second pass stages a different timestamp, which
        -- DO NOTHING discards)
        cases hl : (collectLeagues fd).isEmpty with
        | true => rfl
        | false =>
            simp only [hl, Bool.false_eq_true, if_false]
            apply upsertBatch_eq_of_keep _ _ _ _ (fun _ _ => rfl)
            intro v hv
            apply upsertBatch_isSome_of_mem
            rcases List.mem_map.mp hv with ⟨l, hl2, rfl⟩
            exact List.mem_map.mpr ⟨_, List.mem_map.mpr ⟨l, hl2, rfl⟩, rfl⟩

/-! ## Progress-ledger lemmas -/

theorem progLookup_cons (q : (Nat × Nat) × ProgRow) (l : ProgTable)
    (k : Nat × Nat) :
    progLookup (q :: l) k = if q.1 = k then some q.2 else progLookup l k := by
  simp only [progLookup, List.find?_cons]
  by_cases h : q.1 = k
  · simp [h]
  · simp [h]

theorem progLookup_mapAt (tbl : ProgTable) (k0 : Nat × Nat)
    (f : ProgRow → ProgRow) (k : Nat × Nat) :
    progLookup (tbl.map (fun p => if p.1 = k0 then (p.1, f p.2) else p)) k =
      if k = k0 then (progLookup tbl k).map f else progLookup tbl k := by
  induction tbl with
  | nil => by_cases h : k = k0 <;> simp [progLookup, h]
  | cons p rest ih =>
      simp only [List.map_cons]
      rw [progLookup_cons, progLookup_cons]
      have h1 : (if p.1 = k0 then (p.1, f p.2) else p).1 = p.1 := by
        by_cases h : p.1 = k0 <;> simp [h]
      rw [h1]
      by_cases hpk : p.1 = k
      · rw [if_pos hpk, if_pos hpk]
        by_cases hkk0 : k = k0
        · rw [if_pos hkk0, if_pos (hpk.trans hkk0)]
          simp
        · rw [if_neg hkk0, if_neg (fun h => hkk0 (hpk ▸ h))]
      · rw [if_neg hpk, if_neg hpk, ih]

theorem progLookup_append_single (tbl : ProgTable) (k0 : Nat × Nat)
    (r0 : ProgRow) (k : Nat × Nat) :
    progLookup (tbl ++ [(k0, r0)]) k =
      match progLookup tbl k with
      | some r => some r
      | none => if k0 = k then some r0 else none := by
  induction tbl with
  | nil =>
      simp only [List.nil_append, progLookup_cons]
      by_cases h : k0 = k <;> simp [progLookup, h]
  | cons p rest ih =>
      simp only [List.cons_append]
      rw [progLookup_cons, progLookup_cons]
      by_cases hpk : p.1 = k
      · rw [if_pos hpk, if_pos hpk]
      · rw [if_neg hpk, if_neg hpk, ih]

theorem any_key_iff_lookup (tbl : ProgTable) (k : Nat × Nat) :
    tbl.any (fun p => decide (p.1 = k)) = true ↔ (progLookup tbl k).isSome := by
  induction tbl with
  | nil => simp [progLookup]
  | cons p rest ih =>
      rw [List.any_cons, progLookup_cons]
      by_cases hpk : p.1 = k
      · simp [hpk]
      · simp [hpk, ih]

theorem progLookup_registerTaskKey_some (tbl : ProgTable) (k0 : Nat × Nat)
    (tt : String) (k : Nat × Nat) (r : ProgRow)
    (h : progLookup tbl k = some r) :
    progLookup (registerTaskKey tbl k0 tt) k =
      some (if k = k0 then withTaskType tt r else r) := by
  simp only [registerTaskKey]
  by_cases hany : tbl.any (fun p => decide (p.1 = k0))
  · rw [if_pos hany, progLookup_mapAt, h]
    by_cases hk : k = k0
    · rw [if_pos hk, if_pos hk]
      rfl
    · rw [if_neg hk, if_neg hk]
  · rw [if_neg hany, progLookup_append_single, h]
    have hk : k ≠ k0 := by
      intro he
      exact hany ((any_key_iff_lookup tbl k0).mpr (by rw [← he, h]; rfl))
    rw [if_neg hk]

theorem progLookup_registerTaskKey_none (tbl : ProgTable) (k0 : Nat × Nat)
    (tt : String) (k : Nat × Nat) (h : progLookup tbl k = none) :
    progLookup (registerTaskKey tbl k0 tt) k =
      if k = k0 then some { status := "PENDING", task_type := tt }
      else none := by
  simp only [registerTaskKey]
  by_cases hany : tbl.any (fun p => decide (p.1 = k0))
  · rw [if_pos hany, progLookup_mapAt, h]
    by_cases hk : k = k0
    · exfalso
      have hs := (any_key_iff_lookup tbl k0).mp hany
      rw [← hk, h] at hs
      cases hs
    · rw [if_neg hk, if_neg hk]
  · rw [if_neg hany, progLookup_append_single, h]
    by_cases hk : k = k0
    · rw [if_pos hk, if_pos hk.symm]
    · rw [if_neg hk, if_neg (fun h0 => hk h0.symm)]

theorem registerTasks_preserves_status (tasks : List BackfillTask) :
    ∀ (tbl : ProgTable) (k : Nat × Nat) (r : ProgRow),
    progLookup tbl k = some r →
    ∃ r2, progLookup (registerTasks tbl tasks) k = some r2 ∧
      r2.status = r.status := by
  induction tasks with
  | nil => intro tbl k r h; exact ⟨r, h, rfl⟩
  | cons t0 rest ih =>
      intro tbl k r h
      have h1 := progLookup_registerTaskKey_some tbl (taskKey t0)
        t0.task_type k r h
      rcases ih _ k _ h1 with ⟨r2, h2, hst⟩
      refine ⟨r2, h2, hst.trans ?_⟩
      by_cases hk : k = taskKey t0
      · rw [if_pos hk]; rfl
      · rw [if_neg hk]

theorem registerTasks_new_pending (tasks : List BackfillTask) :
    ∀ (tbl : ProgTable) (k : Nat × Nat), k ∈ tasks.map taskKey →
    progLookup tbl k = none →
    ∃ r2, progLookup (registerTasks tbl tasks) k = some r2 ∧
      r2.status = "PENDING" := by
  induction tasks with
  | nil => intro tbl k hmem; cases hmem
  | cons t0 rest ih =>
      intro tbl k hmem h
      have h1 := progLookup_registerTaskKey_none tbl (taskKey t0)
        t0.task_type k h
      by_cases hk : k = taskKey t0
      · rw [if_pos hk] at h1
        rcases registerTasks_preserves_status rest _ k _ h1 with ⟨r2, h2, hst⟩
        exact ⟨r2, h2, hst⟩
      · rw [if_neg hk] at h1
        rcases List.mem_map.mp hmem with ⟨t, ht, hte⟩
        rcases List.mem_cons.mp ht with rfl | ht2
        · exact absurd hte.symm hk
        · exact ih _ k (List.mem_map.mpr ⟨t, ht2, hte⟩) h1

/-- The selection test of get_pending_tasks, characterized against the
pre-registration ledger. -/
theorem get_pending_tasks_mem_iff (tbl : ProgTable)
    (tasks : List BackfillTask) (t : BackfillTask) (ht : t ∈ tasks) :
    t ∈ (get_pending_tasks tbl tasks).2 ↔
      (progLookup tbl (taskKey t) = none ∨
       ∃ r, progLookup tbl (taskKey t) = some r ∧
         r.status ≠ "COMPLETED" ∧ r.status ≠ "FAILED") := by
  simp only [get_pending_tasks, List.mem_filter]
  constructor
  · rintro ⟨-, hpred⟩
    cases h : progLookup tbl (taskKey t) with
    | none => exact Or.inl rfl
    | some r =>
        rcases registerTasks_preserves_status tasks tbl (taskKey t) r h
          with ⟨r2, h2, hst⟩
        rw [h2] at hpred
        simp only [Bool.and_eq_true, decide_eq_true_eq] at hpred
        exact Or.inr ⟨r, rfl, hst ▸ hpred.1, hst ▸ hpred.2⟩
  · intro hrhs
    refine ⟨ht, ?_⟩
    cases h : progLookup tbl (taskKey t) with
    | none =>
        rcases registerTasks_new_pending tasks tbl (taskKey t)
          (List.mem_map.mpr ⟨t, ht, rfl⟩) h with ⟨r2, h2, hst⟩
        rw [h2]
        simp [hst]
    | some r =>
        rcases hrhs with hnone | ⟨r3, h3, hc, hf⟩
        · rw [h] at hnone; cases hnone
        · have he : r3 = r := by
            rw [h] at h3
            exact (Option.some.inj h3).symm
          subst he
          rcases registerTasks_preserves_status tasks tbl (taskKey t) r3 h
            with ⟨r2, h2, hst⟩
          rw [h2]
          simp [hst, hc, hf]

theorem progLookup_setStatus (tbl : ProgTable) (k0 : Nat × Nat) (st : String)
    (k : Nat × Nat) :
    progLookup (setStatus tbl k0 st) k =
      if k = k0 then (progLookup tbl k).map (withStatus st)
      else progLookup tbl k :=
  progLookup_mapAt tbl k0 _ k

theorem setStatus_preserves (tbl : ProgTable) (k0 : Nat × Nat) (st : String)
    (k : Nat × Nat) (hk : k ≠ k0) :
    progLookup (setStatus tbl k0 st) k = progLookup tbl k := by
  rw [progLookup_setStatus, if_neg hk]

theorem process_task_wrapper_preserves (tbl : ProgTable) (t : BackfillTask)
    (o : TaskOutcome) (k : Nat × Nat) (hk : k ≠ taskKey t) :
    progLookup (process_task_wrapper tbl t o).2 k = progLookup tbl k := by
  simp only [process_task_wrapper, process_season_task_as,
    process_season_task_fd]
  by_cases has : t.task_type = "AS"
  · rw [if_pos has]
    cases o <;> simp [setStatus_preserves _ _ _ _ hk]
  · rw [if_neg has]
    by_cases hfd : t.task_type = "FD"
    · rw [if_pos hfd]
      cases o <;> simp [fdExcMentions403, setStatus_preserves _ _ _ _ hk]
    · rw [if_neg hfd]

theorem sweepExec_preserves (outcomes : BackfillTask → TaskOutcome)
    (sel : List BackfillTask) (k : Nat × Nat)
    (hsel : ∀ t ∈ sel, taskKey t ≠ k) :
    ∀ start : ProgTable × List Bool,
    progLookup (sweepExec outcomes start sel).1 k = progLookup start.1 k := by
  induction sel with
  | nil => intro start; rfl
  | cons t rest ih =>
      intro start
      show progLookup (sweepExec outcomes _ rest).1 k = _
      rw [ih (fun u hu => hsel u (List.mem_cons_of_mem _ hu))]
      exact process_task_wrapper_preserves start.1 t (outcomes t) k
        (fun he => hsel t (List.mem_cons_self _ _) he.symm)

theorem popMinQ_isSome (x : ℚ × String) (xs : List (ℚ × String)) :
    (popMinQ (x :: xs)).isSome := by
  show (match popMinQ xs with
    | none => some (x, [])
    | some (m, rest) =>
        if x.1 ≤ m.1 then some (x, xs) else some (m, x :: rest)).isSome
  cases popMinQ xs with
  | none => rfl
  | some p =>
      cases p with
      | mk m rest => by_cases h : x.1 ≤ m.1 <;> simp [h]

theorem popMinQ_min (l : List (ℚ × String)) :
    ∀ m rest, popMinQ l = some (m, rest) → ∀ p ∈ l, m.1 ≤ p.1 := by
  induction l with
  | nil => intro m rest h; cases h
  | cons x xs ih =>
      intro m rest h p hp
      rw [show popMinQ (x :: xs) = (match popMinQ xs with
        | none => some (x, [])
        | some (m, rest) =>
            if x.1 ≤ m.1 then some (x, xs) else some (m, x :: rest))
        from rfl] at h
      cases hq : popMinQ xs with
      | none =>
          rw [hq] at h
          simp only [Option.some.injEq, Prod.mk.injEq] at h
          obtain ⟨rfl, rfl⟩ := h
          rcases List.mem_cons.mp hp with rfl | hp2
          · exact le_refl _
          · cases xs with
            | nil => cases hp2
            | cons y ys =>
                have := popMinQ_isSome y ys
                rw [hq] at this
                cases this
      | some q =>
          rcases q with ⟨m2, rest2⟩
          rw [hq] at h
          have h2 : (if x.1 ≤ m2.1 then some (x, xs)
              else some (m2, x :: rest2)) = some (m, rest) := h
          by_cases hle : x.1 ≤ m2.1
          · rw [if_pos hle] at h2
            simp only [Option.some.injEq, Prod.mk.injEq] at h2
            obtain ⟨rfl, rfl⟩ := h2
            rcases List.mem_cons.mp hp with rfl | hp2
            · exact le_refl _
            · exact le_trans hle (ih m2 rest2 hq p hp2)
          · rw [if_neg hle] at h2
            simp only [Option.some.injEq, Prod.mk.injEq] at h2
            obtain ⟨rfl, rfl⟩ := h2
            rcases List.mem_cons.mp hp with rfl | hp2
            · exact le_of_lt (lt_of_not_le hle)
            · exact ih _ _ hq p hp2

theorem rotator_get_next_spec (s : RotatorState) (key : String)
    (s1 : RotatorState) (hget : rotator_get_next s = some (key, s1)) :
    ∃ nf rest, popMinQ s.queue = some ((nf, key), rest) ∧
      (∀ p ∈ s.queue, nf ≤ p.1) ∧ nf ≤ s1.now ∧ s.now ≤ s1.now := by
  unfold rotator_get_next at hget
  cases hq : popMinQ s.queue with
  | none => rw [hq] at hget; cases hget
  | some q =>
      rcases q with ⟨⟨nf, k⟩, rest⟩
      rw [hq] at hget
      simp only [Option.some.injEq, Prod.mk.injEq] at hget
      rcases hget with ⟨rfl, rfl⟩
      refine ⟨nf, rest, rfl, popMinQ_min s.queue _ _ hq, ?_, ?_⟩
      · show nf ≤ (if nf > s.now then nf else s.now)
        by_cases h : nf > s.now
        · rw [if_pos h]
        · rw [if_neg h]
          exact le_of_not_lt h
      · show s.now ≤ (if nf > s.now then nf else s.now)
        by_cases h : nf > s.now
        · rw [if_pos h]
          exact le_of_lt h
        · rw [if_neg h]

/-! ## Claim theorems -/

/-- C1: Idempotence of the Upsert Layer — applying each upsert routine
(areas, competitions with their nested area upsert, teams,
matches/fixtures with their nested team upserts, standings, and
update_fixtures_db covering venues, seasons, leagues, enrichment rows and
fixtures) a second time with the exact same payload leaves every table
exactly as after the first application: no duplicate rows appear and no
row changes.  The fixtures upsert of update_fixtures_db is given
duplicate-free incoming fixture ids, which its single ON CONFLICT DO
UPDATE statement itself requires of a batch; the second sync pass may run
at a different wall-clock time ts2. -/
theorem C1_upsert_layer_idempotent
    (areasT : Tbl Nat AreaRow) (areas_data : List FDArea)
    (compsAT : Tbl Nat AreaRow) (compsT : Tbl Nat CompetitionRow)
    (comps_data : List FDCompetition)
    (teamsT : Tbl Nat TeamRow) (teams_data : List FDTeam)
    (mTeamsT : Tbl Nat TeamRow) (matchesT : Tbl Nat MatchVal)
    (cid yr : Nat) (matches_data : List FDMatch)
    (ss : StandingsState) (scid syr : Nat) (standings_data : List FDStanding)
    (prio : List Nat) (ts1 ts2 : ℚ) (db : SyncDb)
    (fixtures_data : List SyncFixture)
    (hnd : (fixtures_data.map (fun f => f.fixture.id)).Nodup) :
    upsert_areas (upsert_areas areasT areas_data) areas_data =
      upsert_areas areasT areas_data ∧
    upsert_competitions (upsert_competitions compsAT compsT comps_data).1
      (upsert_competitions compsAT compsT comps_data).2 comps_data =
      upsert_competitions compsAT compsT comps_data ∧
    upsert_teams (upsert_teams teamsT teams_data) teams_data =
      upsert_teams teamsT teams_data ∧
    upsert_matches_basic
      (upsert_matches_basic mTeamsT matchesT cid yr matches_data).1
      (upsert_matches_basic mTeamsT matchesT cid yr matches_data).2
      cid yr matches_data =
      upsert_matches_basic mTeamsT matchesT cid yr matches_data ∧
    upsert_standings (upsert_standings ss scid syr standings_data)
      scid syr standings_data =
      upsert_standings ss scid syr standings_data ∧
    update_fixtures_db prio ts2
      (update_fixtures_db prio ts1 db fixtures_data).1 fixtures_data =
      update_fixtures_db prio ts1 db fixtures_data :=
  ⟨upsert_areas_idem _ _, upsert_competitions_idem _ _ _, upsert_teams_idem _ _,
   upsert_matches_basic_idem _ _ _ _ _, upsert_standings_idem _ _ _ _,
   update_fixtures_db_idem _ _ _ _ _ hnd⟩

/-- C1 witness: the idempotence theorem applied at a concrete two-fixture
payload with duplicate-free fixture ids. -/
theorem C1_upsert_layer_idempotent_witness :
    (([mkNSFixture 1, mkNSFixture 2].map (fun f => f.fixture.id)).Nodup) ∧
    (upsert_areas (upsert_areas (fun _ => none) []) [] =
        upsert_areas (fun _ => none) [] ∧
     upsert_competitions
        (upsert_competitions (fun _ => none) (fun _ => none) []).1
        (upsert_competitions (fun _ => none) (fun _ => none) []).2 [] =
        upsert_competitions (fun _ => none) (fun _ => none) [] ∧
     upsert_teams (upsert_teams (fun _ => none) []) [] =
        upsert_teams (fun _ => none) [] ∧
     upsert_matches_basic
        (upsert_matches_basic (fun _ => none) (fun _ => none) 2021 2015 []).1
        (upsert_matches_basic (fun _ => none) (fun _ => none) 2021 2015 []).2
        2021 2015 [] =
        upsert_matches_basic (fun _ => none) (fun _ => none) 2021 2015 [] ∧
     upsert_standings (upsert_standings emptyStandingsState 2021 2015 [])
        2021 2015 [] =
        upsert_standings emptyStandingsState 2021 2015 [] ∧
     update_fixtures_db [] 1
        (update_fixtures_db [] 0 emptySyncDb [mkNSFixture 1, mkNSFixture 2]).1
        [mkNSFixture 1, mkNSFixture 2] =
        update_fixtures_db [] 0 emptySyncDb [mkNSFixture 1, mkNSFixture 2]) :=
  ⟨by decide,
   C1_upsert_layer_idempotent (fun _ => none) [] (fun _ => none) (fun _ => none)
     [] (fun _ => none) [] (fun _ => none) (fun _ => none) 2021 2015 []
     emptyStandingsState 2021 2015 [] [] 0 1 emptySyncDb
     [mkNSFixture 1, mkNSFixture 2] (by decide)⟩

/-- C2 counterexample: as stated the claim fails on the code at a 1-1
full-time draw.  With no extra time and no penalty data the CSV
converter's fixture stores home_winner = False and away_winner = False,
not None; and sync.py's transform computes the winner from the full-time
goals alone, so the 1-1 fixture decided 5-4 on penalties still gets
home_winner = False rather than True. -/
theorem C2_counterexample :
    process_fd_api_csv_winner 1 1 none none none none =
      (some false, some false) ∧
    process_fd_api_csv_winner 1 1 none none none none ≠
      (none, none) ∧
    (transform_fixture_data penaltyShootoutFixture).2.home_winner = some false ∧
    (transform_fixture_data penaltyShootoutFixture).2.home_winner ≠ some true :=
  ⟨by decide, by decide, by decide, by decide⟩

/-- C2 (amended): winner derivation.  In the CSV converter the winners
are derived from full-time plus extra-time goals, falling back to the
penalty scores only on an exact aggregate tie; a tied aggregate with
missing (or tied) penalty data stores home_winner = False and
away_winner = False, not None.  In sync.py's transform_fixture_data the
winners are derived from the full-time goals alone — some (gh > ga) and
some (ga > gh) when both are present, None when either is missing — never
consulting extra-time or penalty scores.  (goals 2-1, no ET/pens) gives
(True, False); (1-1, pens 5-4) gives (True, False) in the converter;
(1-1, no pens) gives (False, False). -/
theorem C2_winner_derivation (fh fa : Int) (eh ea ph pa : Option Int)
    (f : SyncFixture) (gh ga : Int)
    (hgh : f.goals.home = some gh) (hga : f.goals.away = some ga) :
    (csv_total fh eh > csv_total fa ea →
      csv_winner fh fa eh ea ph pa = (true, false)) ∧
    (csv_total fh eh < csv_total fa ea →
      csv_winner fh fa eh ea ph pa = (false, true)) ∧
    (∀ phv pav, csv_total fh eh = csv_total fa ea → ph = some phv →
      pa = some pav → phv > pav →
      csv_winner fh fa eh ea ph pa = (true, false)) ∧
    (csv_total fh eh = csv_total fa ea → (ph = none ∨ pa = none) →
      csv_winner fh fa eh ea ph pa = (false, false)) ∧
    csv_winner 2 1 none none none none = (true, false) ∧
    csv_winner 1 1 none none (some 5) (some 4) = (true, false) ∧
    csv_winner 1 1 none none none none = (false, false) ∧
    (transform_fixture_data f).2.home_winner = some (decide (gh > ga)) ∧
    (transform_fixture_data f).2.away_winner = some (decide (ga > gh)) ∧
    (∀ g : SyncFixture, g.goals.home = none →
      (transform_fixture_data g).2.home_winner = none ∧
      (transform_fixture_data g).2.away_winner = none) := by
  refine ⟨?_, ?_, ?_, ?_, by decide, by decide, by decide, ?_, ?_, ?_⟩
  · intro h
    simp only [csv_winner]
    rw [if_pos h]
  · intro h
    simp only [csv_winner]
    rw [if_neg (lt_asymm h), if_pos h]
  · intro phv pav he hph hpa hgt
    simp only [csv_winner]
    rw [if_neg (he ▸ lt_irrefl _), if_neg (he ▸ lt_irrefl _), hph, hpa]
    simp only [if_pos hgt]
  · intro he hnone
    simp only [csv_winner]
    rw [if_neg (he ▸ lt_irrefl _), if_neg (he ▸ lt_irrefl _)]
    rcases hnone with h | h
    · rw [h]
    · rw [h]; cases ph <;> rfl
  · simp [transform_fixture_data, safe_int, hgh, hga]
  · simp [transform_fixture_data, safe_int, hgh, hga]
  · intro g hg
    constructor <;> simp [transform_fixture_data, safe_int, hg]

/-- C2 witness: the amended theorem applied at the 5-4 penalty-shootout
fixture and at a 3-1 aggregate. -/
theorem C2_winner_derivation_witness :
    penaltyShootoutFixture.goals.home = some 1 ∧
    penaltyShootoutFixture.goals.away = some 1 ∧
    csv_total 3 none > csv_total 1 none ∧
    csv_winner 3 1 none none none none = (true, false) ∧
    (transform_fixture_data penaltyShootoutFixture).2.home_winner =
      some (decide ((1 : Int) > 1)) :=
  ⟨by decide, by decide, by decide,
   (C2_winner_derivation 3 1 none none none none penaltyShootoutFixture 1 1
     (by decide) (by decide)).1 (by decide),
   (C2_winner_derivation 3 1 none none none none penaltyShootoutFixture 1 1
     (by decide) (by decide)).2.2.2.2.2.2.2.1⟩

/-- C3: identity-mapper offset scheme.  Every team produced by
transform_as_teams carries a local id equal to its native id plus
AS_ID_OFFSET (with the native id retained in as_team_id); every match
produced by transform_as_matches carries a local id equal to its native
fixture id plus AS_ID_OFFSET and home/away team ids likewise offset; the
AS worker's subtraction recovers the native league id from the offset
competition id built at discovery; and under the spec's premise that
primary-provider native ids stay below the offset, every mapped id is
distinct from every primary-provider id. -/
theorem C3_identity_mapper_offset (now : String)
    (as_teams_data : List ASTeamItem) (fromtimestamp : Int → String)
    (as_fixtures_data : List ASMatchItem) (coff syr : Nat)
    (n fd_id : Nat) (hfd : fd_id < AS_ID_OFFSET) :
    (∀ t ∈ transform_as_teams now as_teams_data,
      ∃ native, t.as_team_id = some native ∧
        t.id = some (native + AS_ID_OFFSET) ∧ t.id ≠ some fd_id) ∧
    (∀ m ∈ transform_as_matches fromtimestamp as_fixtures_data coff syr,
      (∃ native, m.id = some (native + AS_ID_OFFSET) ∧ m.id ≠ some fd_id) ∧
      (∀ ht, m.homeTeam = some ht → ∃ k, ht.id = some (k + AS_ID_OFFSET)) ∧
      (∀ aw, m.awayTeam = some aw → ∃ k, aw.id = some (k + AS_ID_OFFSET))) ∧
    as_task_native_comp_id (discover_as_comp_id n) = n ∧
    discover_as_comp_id n ≠ fd_id := by
  refine ⟨?_, ?_, ?_, ?_⟩
  · intro t ht
    rcases List.mem_map.mp ht with ⟨item, hitem, rfl⟩
    rcases List.mem_filter.mp hitem with ⟨_, htr⟩
    cases hid : item.team.id with
    | none => rw [hid] at htr; simp [natTruthy] at htr
    | some k =>
        refine ⟨k, by simp [hid], by simp [hid], ?_⟩
        simp only [hid, Option.getD_some, ne_eq, Option.some.injEq]
        omega
  · intro m hm
    rcases List.mem_map.mp hm with ⟨item, _hitem, rfl⟩
    refine ⟨⟨item.fixture.id.getD 0, rfl, ?_⟩, ?_, ?_⟩
    · simp only [ne_eq, Option.some.injEq]
      omega
    · intro ht hht
      rcases Option.some.inj hht with rfl
      exact ⟨item.teams.home.id.getD 0, rfl⟩
    · intro aw haw
      rcases Option.some.inj haw with rfl
      exact ⟨item.teams.away.id.getD 0, rfl⟩
  · simp [as_task_native_comp_id, discover_as_comp_id]
  · simp only [discover_as_comp_id, ne_eq]
    omega

/-- C3 witness: the offset theorem applied at a concrete AS team, a
concrete AS fixture and the primary-provider id 39 (Premier League). -/
theorem C3_identity_mapper_offset_witness :
    39 < AS_ID_OFFSET ∧
    (∀ t ∈ transform_as_teams "2025-01-01T00:00:00+00:00" [c3_team_item],
      ∃ native, t.as_team_id = some native ∧
        t.id = some (native + AS_ID_OFFSET) ∧ t.id ≠ some 39) ∧
    (∀ m ∈ transform_as_matches (fun _ => "2023-08-11T19:00:00+00:00")
        [c3_match_item] 1000039 2023,
      (∃ native, m.id = some (native + AS_ID_OFFSET) ∧ m.id ≠ some 39) ∧
      (∀ ht, m.homeTeam = some ht → ∃ k, ht.id = some (k + AS_ID_OFFSET)) ∧
      (∀ aw, m.awayTeam = some aw → ∃ k, aw.id = some (k + AS_ID_OFFSET))) ∧
    as_task_native_comp_id (discover_as_comp_id 39) = 39 ∧
    discover_as_comp_id 39 ≠ 39 :=
  ⟨by decide,
   (C3_identity_mapper_offset "2025-01-01T00:00:00+00:00" [c3_team_item]
     (fun _ => "2023-08-11T19:00:00+00:00") [c3_match_item] 1000039 2023
     39 39 (by decide)).1,
   (C3_identity_mapper_offset "2025-01-01T00:00:00+00:00" [c3_team_item]
     (fun _ => "2023-08-11T19:00:00+00:00") [c3_match_item] 1000039 2023
     39 39 (by decide)).2.1,
   (C3_identity_mapper_offset "2025-01-01T00:00:00+00:00" [c3_team_item]
     (fun _ => "2023-08-11T19:00:00+00:00") [c3_match_item] 1000039 2023
     39 39 (by decide)).2.2.1,
   (C3_identity_mapper_offset "2025-01-01T00:00:00+00:00" [c3_team_item]
     (fun _ => "2023-08-11T19:00:00+00:00") [c3_match_item] 1000039 2023
     39 39 (by decide)).2.2.2⟩

/-- C4: Progress-ledger monotonicity.  Registering the discovered task
universe never changes any recorded status (only task_type); a discovered
task is selected exactly when its recorded status (PENDING for a
never-seen task) is neither COMPLETED nor FAILED; a COMPLETED task is
never executed by a sweep and stays COMPLETED through it; a FAILED task
stays FAILED through a whole sweep, even though discovery re-registers it
from scratch. -/
theorem C4_progress_ledger_monotonic (tbl : ProgTable)
    (tasks : List BackfillTask) (outcomes : BackfillTask → TaskOutcome)
    (k : Nat × Nat) (r : ProgRow) (t : BackfillTask) (ht : t ∈ tasks) :
    (progLookup tbl k = some r →
      ∃ r2, progLookup (registerTasks tbl tasks) k = some r2 ∧
        r2.status = r.status) ∧
    (t ∈ (get_pending_tasks tbl tasks).2 ↔
      (progLookup tbl (taskKey t) = none ∨
       ∃ r0, progLookup tbl (taskKey t) = some r0 ∧
         r0.status ≠ "COMPLETED" ∧ r0.status ≠ "FAILED")) ∧
    (progLookup tbl k = some r → r.status = "COMPLETED" →
      (∀ t2 ∈ (runSweep tbl tasks outcomes).2.1, taskKey t2 ≠ k) ∧
      ∃ r2, progLookup (runSweep tbl tasks outcomes).1 k = some r2 ∧
        r2.status = "COMPLETED") ∧
    (progLookup tbl k = some r → r.status = "FAILED" →
      ∃ r2, progLookup (runSweep tbl tasks outcomes).1 k = some r2 ∧
        r2.status = "FAILED") := by
  have hterminal : ∀ st : String, progLookup tbl k = some r → r.status = st →
      st = "COMPLETED" ∨ st = "FAILED" →
      (∀ t2 ∈ (get_pending_tasks tbl tasks).2, taskKey t2 ≠ k) := by
    intro st h hst hcf t2 ht2 hke
    have ht2m : t2 ∈ tasks := List.mem_of_mem_filter ht2
    rcases (get_pending_tasks_mem_iff tbl tasks t2 ht2m).mp ht2 with hn | ⟨r0, h0, hc, hf⟩
    · rw [hke, h] at hn; cases hn
    · rw [hke, h] at h0
      rcases Option.some.inj h0 with rfl
      rcases hcf with rfl | rfl
      · exact hc hst
      · exact hf hst
  have hpreserve : ∀ st : String, progLookup tbl k = some r → r.status = st →
      st = "COMPLETED" ∨ st = "FAILED" →
      ∃ r2, progLookup (runSweep tbl tasks outcomes).1 k = some r2 ∧
        r2.status = st := by
    intro st h hst hcf
    have hne := hterminal st h hst hcf
    have hpres := sweepExec_preserves outcomes (get_pending_tasks tbl tasks).2 k
      (fun t2 ht2 => hne t2 ht2) ((get_pending_tasks tbl tasks).1, [])
    rcases registerTasks_preserves_status tasks tbl k r h with ⟨r2, h2, hs2⟩
    exact ⟨r2, by rw [show (runSweep tbl tasks outcomes).1 =
      (sweepExec outcomes ((get_pending_tasks tbl tasks).1, [])
        (get_pending_tasks tbl tasks).2).1 from rfl, hpres]; exact h2,
      hs2.trans hst⟩
  refine ⟨registerTasks_preserves_status tasks tbl k r,
    get_pending_tasks_mem_iff tbl tasks t ht, ?_, ?_⟩
  · intro h hst
    exact ⟨hterminal "COMPLETED" h hst (Or.inl rfl),
      hpreserve "COMPLETED" h hst (Or.inl rfl)⟩
  · intro h hst
    exact hpreserve "FAILED" h hst (Or.inr rfl)

/-- C4 witness: the theorem applied at a ledger with a COMPLETED row for
the single discovered task, which is therefore not executed and stays
COMPLETED through the sweep. -/
theorem C4_progress_ledger_monotonic_witness :
    c4_task ∈ [c4_task] ∧
    progLookup c4_tbl (2021, 2015) =
      some { status := "COMPLETED", task_type := "FD" } ∧
    (∀ t2 ∈ (runSweep c4_tbl [c4_task] (fun _ => TaskOutcome.ok)).2.1,
      taskKey t2 ≠ (2021, 2015)) ∧
    (∃ r2, progLookup
        (runSweep c4_tbl [c4_task] (fun _ => TaskOutcome.ok)).1 (2021, 2015) =
        some r2 ∧ r2.status = "COMPLETED") :=
  ⟨by decide, by decide,
   ((C4_progress_ledger_monotonic c4_tbl [c4_task] (fun _ => TaskOutcome.ok)
      (2021, 2015) { status := "COMPLETED", task_type := "FD" } c4_task
      (by decide)).2.2.1 (by decide) (by decide)).1,
   ((C4_progress_ledger_monotonic c4_tbl [c4_task] (fun _ => TaskOutcome.ok)
      (2021, 2015) { status := "COMPLETED", task_type := "FD" } c4_task
      (by decide)).2.2.1 (by decide) (by decide)).2⟩

/-- C6 counterexample: the claim fails on sync.py's teams upsert — its
ON CONFLICT clause has venue_id = COALESCE(teams.venue_id,
EXCLUDED.venue_id), so a stored venue_id 5 survives a re-sync that
delivers venue_id 7 and the row does not equal the latest fetched
value. -/
theorem C6_counterexample :
    (applySyncTeamFix (some c6_stored_team_row) c6_incoming_team_val).venue_id =
      some 5 ∧
    c6_incoming_team_val.venue_id = some 7 ∧
    (applySyncTeamFix (some c6_stored_team_row) c6_incoming_team_val).venue_id ≠
      c6_incoming_team_val.venue_id :=
  ⟨by decide, by decide, by decide⟩

/-- C6 (amended): upsert freshness.  Every populator upsert sets all
non-key columns from the incoming row (the merge ignores the stored row).
In sync.py, however, the teams upsert prefers incoming values only
through COALESCE (a NULL incoming name/code/country/logo keeps the stored
value), keeps the stored venue_id whenever non-NULL, and never updates
founded/national on the fixtures path; and the fixtures upsert sets every
result/status column from the incoming row but keeps the stored
foreign-key columns (league_id, season_year, team ids, venue_id) whenever
non-NULL. -/
theorem C6_upsert_freshness :
    (∀ (o o' : Option AreaRow) (a : FDArea),
      applyArea o a = applyArea o' a ∧ applyArea o a = areaRowOf a) ∧
    (∀ (o o' : Option TeamRow) (t : FDTeam),
      applyTeamFD o t = applyTeamFD o' t ∧ applyTeamFD o t = teamRowOf t) ∧
    (∀ (o o' : Option CompetitionRow) (c : FDCompetition),
      applyComp o c = applyComp o' c ∧ applyComp o c = compRowOf c) ∧
    (∀ (o o' : Option MatchVal) (v : MatchVal),
      applyMatchFD o v = applyMatchFD o' v ∧ applyMatchFD o v = v) ∧
    (∀ (o o' : Option SRowVal) (v : SRowVal),
      applySRow o v = applySRow o' v ∧ applySRow o v = v) ∧
    (∀ (old : SyncTeamRow) (v : SyncTeamVal),
      (∀ x, v.name = some x →
        (applySyncTeamFix (some old) v).name = some x) ∧
      (v.name = none → (applySyncTeamFix (some old) v).name = old.name) ∧
      (∀ w, old.venue_id = some w →
        (applySyncTeamFix (some old) v).venue_id = some w) ∧
      (old.venue_id = none →
        (applySyncTeamFix (some old) v).venue_id = v.venue_id) ∧
      (applySyncTeamFix (some old) v).founded = old.founded ∧
      (applySyncTeamFix (some old) v).national = old.national) ∧
    (∀ (old : FixtureRowDB) (r : FixRow),
      (applyFixture (some old) r).status_short = r.status_short ∧
      (applyFixture (some old) r).goals_home = r.goals_home ∧
      (applyFixture (some old) r).home_winner = r.home_winner ∧
      (applyFixture (some old) r).score_pen_home = r.score_pen_home ∧
      (∀ w, old.league_id = some w →
        (applyFixture (some old) r).league_id = some w) ∧
      (old.venue_id = none →
        (applyFixture (some old) r).venue_id = r.venue_id)) := by
  refine ⟨fun o o' a => ⟨rfl, rfl⟩, fun o o' t => ⟨rfl, rfl⟩,
    fun o o' c => ⟨rfl, rfl⟩, fun o o' v => ⟨rfl, rfl⟩,
    fun o o' v => ⟨rfl, rfl⟩, ?_, ?_⟩
  · intro old v
    refine ⟨?_, ?_, ?_, ?_, rfl, rfl⟩
    · intro x h
      show v.name.or old.name = some x
      rw [h]
      rfl
    · intro h
      show v.name.or old.name = old.name
      rw [h]
      rfl
    · intro w h
      show old.venue_id.or v.venue_id = some w
      rw [h]
      rfl
    · intro h
      show old.venue_id.or v.venue_id = v.venue_id
      rw [h]
      rfl
  · intro old r
    refine ⟨rfl, rfl, rfl, rfl, ?_, ?_⟩
    · intro w h
      show old.league_id.or (some r.league_id) = some w
      rw [h]
      rfl
    · intro h
      show old.venue_id.or r.venue_id = r.venue_id
      rw [h]
      rfl

/-- C6 witness: the amended theorem applied at the stored/incoming team
pair of the counterexample. -/
theorem C6_upsert_freshness_witness :
    c6_incoming_team_val.name = some "Arsenal FC" ∧
    c6_stored_team_row.venue_id = some 5 ∧
    (applySyncTeamFix (some c6_stored_team_row) c6_incoming_team_val).name =
      some "Arsenal FC" ∧
    (applySyncTeamFix (some c6_stored_team_row) c6_incoming_team_val).venue_id =
      some 5 :=
  ⟨by decide, by decide,
   (C6_upsert_freshness.2.2.2.2.2.1 c6_stored_team_row
     c6_incoming_team_val).1 "Arsenal FC" (by decide),
   (C6_upsert_freshness.2.2.2.2.2.1 c6_stored_team_row
     c6_incoming_team_val).2.2.1 5 (by decide)⟩

/-- C7: the claim's sliding-window bound fails on the real code.
KeyRotator.get_next does hand the caller the key with the minimal
next-available timestamp and block until it, and release/penalize
re-enqueue at 6.5 s / 70 s - but api_call_fd penalizes a 403/429 TWICE:
once in the status branch (populator.py lines 199-204) and once more in
the except handler (lines 218-221) catching the exception raised there.
The key thus permanently gains a second queue entry, after which two
request tokens run concurrently at 6.5-second spacing each: a 12-request
burst whose first request draws a 429 issues its remaining 11 requests at
times 70, 70, 76.5, 76.5, 83, 83, 89.5, 89.5, 96, 96 and 102.5 - all
inside the 60-second sliding window [70, 130), violating the claimed
at-most-10 bound. -/
theorem C7_rate_limiter_double_penalty :
    (rotatorBurst ⟨[(0, "K")], 0⟩
        (FDCallOutcome.limited :: List.replicate 11 FDCallOutcome.ok)).1 =
      [0, 70, 70, 76.5, 76.5, 83, 83, 89.5, 89.5, 96, 96, 102.5] ∧
    windowCount (rotatorBurst ⟨[(0, "K")], 0⟩
        (FDCallOutcome.limited :: List.replicate 11 FDCallOutcome.ok)).1
      70 = 11 ∧
    ¬ (windowCount (rotatorBurst ⟨[(0, "K")], 0⟩
        (FDCallOutcome.limited :: List.replicate 11 FDCallOutcome.ok)).1
      70 ≤ 10) := by
  have h1 : (rotatorBurst ⟨[(0, "K")], 0⟩
      (FDCallOutcome.limited :: List.replicate 11 FDCallOutcome.ok)).1 =
      [0, 70, 70, 76.5, 76.5, 83, 83, 89.5, 89.5, 96, 96, 102.5] := by
    norm_num [rotatorBurst, rotator_get_next, rotator_release,
      rotator_penalize, popMinQ, FD_SUCCESS_COOLDOWN, FD_PENALTY_COOLDOWN,
      List.replicate]
  refine ⟨h1, ?_, ?_⟩
  · rw [h1]
    norm_num [windowCount, List.countP, List.countP.go]
  · rw [h1]
    norm_num [windowCount, List.countP, List.countP.go]

/-- C8: the poll cycle is claimed to pass the predictor exactly the set of
fixture ids upserted with a live-ish status, but update_fixtures_db
collects its ids from cursor.fetchall() after execute_values, which pages
its 250-row chunks at the default page_size of 100 and exposes only the
LAST page's RETURNING rows: a single date payload of 101 scheduled (NS)
fixtures with ids 1 to 101 makes the cycle invoke the predictor with just
the id set containing 101, although fixture 1 was upserted with the live-ish
status NS and so belongs to the claimed trigger set. -/
theorem C8_predictor_trigger_page_loss :
    cyclePredictorCall [] 0 emptySyncDb [c8_payload] =
      some ({101} : Finset Nat) ∧
    (1 : Nat) ∈ spec_live_fixture_ids [c8_payload] ∧
    (1 : Nat) ∉ ({101} : Finset Nat) := by
  refine ⟨by decide, by decide, by decide⟩

theorem resolveAreaName_ne_empty (c : ASCountry) : resolveAreaName c ≠ "" := by
  unfold resolveAreaName
  by_cases h1 : strFalsy c.name = true
  · rw [if_neg (not_not_intro h1)]
    by_cases h2 : strFalsy c.code = true
    · rw [if_neg (not_not_intro h2)]
      decide
    · rw [if_pos h2]
      cases hc : c.code with
      | none => rw [hc] at h2; exact absurd rfl h2
      | some s =>
          have hs : s ≠ "" := by simpa [strFalsy, hc] using h2
          simpa [hc] using hs
  · rw [if_pos h1]
    cases hn : c.name with
    | none => rw [hn] at h1; exact absurd rfl h1
    | some s =>
        have hs : s ≠ "" := by simpa [strFalsy, hn] using h1
        simpa [hn] using hs

/-- C9 counterexample: with an existing areas table whose maximal area_id
is 100 and a country carrying only a name, get_or_create_as_area allocates
(100 or 2000) + 1 = 101, not the claimed max(100, 2000) + 1 = 2001. -/
theorem C9_counterexample :
    (get_or_create_as_area [⟨100, some "Foo", none, none⟩]
        (some ⟨some "X", none, none⟩)).1 = some 101 ∧
    (101 : Nat) ≠ max 100 2000 + 1 := by
  refine ⟨by decide, by decide⟩

/-- C9 (amended): get_or_create_as_area resolves a never-empty area name
by falling back from the country's name to its code to the literal
Unknown Area; it returns the id of an existing row carrying the resolved
name and leaves the relation unchanged; when no such row exists it
allocates (MAX(area_id) or 2000) + 1 - Python or, so 2000 stands in only
when the table is empty or its maximal id is 0, NOT the claimed
max(MAX(area_id), 2000) - upserts the new row and returns the new id; and
it returns None exactly on an empty country payload (the embedding does
not model the insert itself raising). -/
theorem C9_area_creation (rel : List AreaRec) (c : ASCountry) :
    resolveAreaName c ≠ "" ∧
    (¬ strFalsy c.name → resolveAreaName c = c.name.getD "") ∧
    (strFalsy c.name → ¬ strFalsy c.code → resolveAreaName c = c.code.getD "") ∧
    (strFalsy c.name → strFalsy c.code → resolveAreaName c = "Unknown Area") ∧
    get_or_create_as_area rel none = (none, rel) ∧
    (∀ r, rel.find? (fun r => decide (r.name = some (resolveAreaName c))) =
        some r →
      get_or_create_as_area rel (some c) = (some r.area_id, rel)) ∧
    (rel.find? (fun r => decide (r.name = some (resolveAreaName c))) = none →
      get_or_create_as_area rel (some c) =
        (some (pyOrNat ((rel.map (·.area_id)).max?) 2000 + 1),
         relUpsertArea rel
           { area_id := pyOrNat ((rel.map (·.area_id)).max?) 2000 + 1,
             name := some (resolveAreaName c), code := c.code,
             flag := c.flag })) ∧
    (get_or_create_as_area rel (some c)).1 ≠ none := by
  refine ⟨resolveAreaName_ne_empty c, ?_, ?_, ?_, rfl, ?_, ?_, ?_⟩
  · intro h
    unfold resolveAreaName
    rw [if_pos h]
  · intro h1 h2
    unfold resolveAreaName
    rw [if_neg (not_not_intro h1), if_pos h2]
  · intro h1 h2
    unfold resolveAreaName
    rw [if_neg (not_not_intro h1), if_neg (not_not_intro h2)]
  · intro r hr
    simp only [get_or_create_as_area, hr]
  · intro hnone
    simp only [get_or_create_as_area, hnone]
  · simp only [get_or_create_as_area]
    cases hf : rel.find? (fun r => decide (r.name = some (resolveAreaName c))) with
    | none => simp [hf]
    | some r => simp [hf]

/-- C9 witness: the amended theorem applied to a one-row relation with
maximal id 2500 and a code-only country: the name falls back to the code,
no row matches, and the allocated id is 2500 + 1 = 2501. -/
theorem C9_area_creation_witness :
    resolveAreaName ⟨none, some "DE", none⟩ = "DE" ∧
    (get_or_create_as_area [⟨2500, some "Foo", none, none⟩]
        (some ⟨none, some "DE", none⟩)).1 = some 2501 := by
  have h := C9_area_creation [⟨2500, some "Foo", none, none⟩]
    ⟨none, some "DE", none⟩
  refine ⟨?_, ?_⟩
  · have h3 := h.2.2.1 (by decide) (by decide)
    simpa using h3
  · have h7 := h.2.2.2.2.2.2.1 (by decide)
    rw [h7]
    decide

/-- C10: enrichment atomicity - a worker run that fails either the teams
step (no or empty /teams payload) or the standings step (no /standings
payload) returns False and leaves the whole database - the league's
enrichment_status row and its teams, venues and standings - unchanged
(the rollback); it returns True exactly when both steps contributed, and
then the committed database is the two steps' writes followed by the
ENRICHED mark; the mark sets the league's enrichment_status row to
ENRICHED with last_enriched_at = now and touches no other league's
row. -/
theorem C10_enrichment_atomicity (db : SyncDb) (league_id season_year : Nat)
    (now : ℚ) (tp : Option (List ASTeamItem))
    (sp : Option (List (List ASRankData))) :
    ((run_enrichment_worker db league_id season_year now tp sp).1 = false →
      (run_enrichment_worker db league_id season_year now tp sp).2 = db) ∧
    ((run_enrichment_worker db league_id season_year now tp sp).1 = true ↔
      (∃ teams_data, tp = some teams_data ∧ teams_data ≠ [] ∧
       ∃ sl, sp = some sl)) ∧
    (∀ teams_data sl, tp = some teams_data → teams_data ≠ [] →
      sp = some sl →
      run_enrichment_worker db league_id season_year now tp sp =
        (true, markEnriched
          (fetch_and_upsert_standings
            (fetch_and_upsert_teams db tp).2 league_id season_year now sp).2
          league_id now)) ∧
    (∀ row, db.enrichment_status league_id = some row →
      (markEnriched db league_id now).enrichment_status league_id =
        some { status := "ENRICHED", last_enriched_at := now }) ∧
    (∀ k, k ≠ league_id →
      (markEnriched db league_id now).enrichment_status k =
        db.enrichment_status k) := by
  refine ⟨?_, ?_, ?_, ?_, ?_⟩
  · intro h
    cases tp with
    | none => rfl
    | some teams_data =>
        by_cases he : teams_data.isEmpty
        · simp [run_enrichment_worker, fetch_and_upsert_teams, he]
        · cases sp with
          | none =>
              simp [run_enrichment_worker, fetch_and_upsert_teams,
                fetch_and_upsert_standings, he]
          | some sl =>
              simp [run_enrichment_worker, fetch_and_upsert_teams,
                fetch_and_upsert_standings, he] at h
  · constructor
    · intro h
      cases tp with
      | none => simp [run_enrichment_worker, fetch_and_upsert_teams] at h
      | some teams_data =>
          by_cases he : teams_data.isEmpty
          · simp [run_enrichment_worker, fetch_and_upsert_teams, he] at h
          · cases sp with
            | none =>
                simp [run_enrichment_worker, fetch_and_upsert_teams,
                  fetch_and_upsert_standings, he] at h
            | some sl =>
                refine ⟨teams_data, rfl, ?_, sl, rfl⟩
                intro hnil
                exact he (by simp [hnil])
    · rintro ⟨teams_data, rfl, hne, sl, rfl⟩
      have he : teams_data.isEmpty = false := by
        cases teams_data with
        | nil => exact absurd rfl hne
        | cons a l => rfl
      simp [run_enrichment_worker, fetch_and_upsert_teams,
        fetch_and_upsert_standings, he]
  · rintro teams_data sl rfl hne rfl
    have he : teams_data.isEmpty = false := by
      cases teams_data with
      | nil => exact absurd rfl hne
      | cons a l => rfl
    simp [run_enrichment_worker, fetch_and_upsert_teams,
      fetch_and_upsert_standings, he]
  · intro row hrow
    simp [markEnriched, hrow]
  · intro k hk
    simp [markEnriched, hk]

/-- C10 witness: a failed teams step leaves the concrete database
unchanged; with both payloads present the run returns True and commits
the two steps' writes plus the ENRICHED mark; the mark turns league 39's
PENDING row into ENRICHED at time 5. -/
theorem C10_enrichment_atomicity_witness :
    (run_enrichment_worker c10_db 39 2024 5 none (some [[c10_rank]])).2 =
      c10_db ∧
    run_enrichment_worker c10_db 39 2024 5 (some [c10_team_item])
        (some [[c10_rank]]) =
      (true, markEnriched
        (fetch_and_upsert_standings
          (fetch_and_upsert_teams c10_db (some [c10_team_item])).2 39 2024 5
          (some [[c10_rank]])).2
        39 5) ∧
    (markEnriched c10_db 39 5).enrichment_status 39 =
      some { status := "ENRICHED", last_enriched_at := 5 } :=
  ⟨(C10_enrichment_atomicity c10_db 39 2024 5 none (some [[c10_rank]])).1 rfl,
   (C10_enrichment_atomicity c10_db 39 2024 5 (some [c10_team_item])
     (some [[c10_rank]])).2.2.1 [c10_team_item] [[c10_rank]] rfl
     (by simp) rfl,
   (C10_enrichment_atomicity c10_db 39 2024 5 (some [c10_team_item])
     (some [[c10_rank]])).2.2.2.1
     { status := "PENDING", last_enriched_at := 0 } rfl⟩

end AtomPwa
